import Mathlib

/-!
# Verification of the gem5-to-McPAT statistics converter

Shallow embedding of the two Python source files of the repository
(`mcpat_converter/custom_converter.py` and `mcpat_converter/backup.py`)
together with theorems settling the frozen claims about the converter.

Modelling conventions:
* Python numbers (ints and floats) are modelled as rationals (`ℚ`); all
  arithmetic the claims exercise (integer truncation, division by 1024,
  division by 1,000,000, addition of counts) is exact, so no rounding
  behaviour of binary64 floats is observable in any claim.
* Python dictionaries are modelled as association lists with first-match
  lookup and overwrite-on-insert semantics.
* The fixed XML templates are modelled as finite maps from a field key
  (the addressed node together with the target attribute name) to the
  attribute string; `ElementTree.find` followed by assignment to
  `attrib["value"]` becomes `setF`.  Every node addressed by the code is
  uniquely named inside the template, so the (node, attribute) pair is a
  faithful address.  Template attributes that `create_mcpat_xml` never
  reads nor writes are omitted from the field map (the code never removes
  or adds nodes, so they stay at their literal default).
* Python exceptions are modelled with `Except PyErr`; `try/except`
  blocks catch exactly the constructors the source names.
* Warnings printed with `print` are modelled as values of type `Warning`
  accumulated in order; each constructor documents the message it stands
  for.
-/

/-- JSON values as produced by Python `json.load`.  Numeric literals are
modelled as rationals; an integral rational stands for a Python `int`
(gem5 config files use integral numbers for every field the code reads). -/
inductive Json
  | null
  | bool (b : Bool)
  | num (q : ℚ)
  | str (s : String)
  | arr (xs : List Json)
  | obj (fields : List (String × Json))

/-- The Python exceptions the converter can raise or catch. -/
inductive PyErr
  | keyError (k : String)
  | indexError
  | typeError (msg : String)
  | valueError (msg : String)
  | attributeError (msg : String)
deriving DecidableEq, Repr

/-- Warnings printed on stdout by the converter.
* `missingStat k d` stands for
  `Warning: Stat -k- not found. Returning default value -d-.`
  printed by `get_stat_value` in custom_converter.py.
* `l1iConfigMissing` stands for
  `Warning: Could not find L1I cache config. ...` (both variants).
* `l1dConfigMissing` and `l2ConfigMissing` likewise for the L1D and L2
  cache-configuration handlers. -/
inductive Warning
  | missingStat (key : String) (dflt : ℚ)
  | l1iConfigMissing
  | l1dConfigMissing
  | l2ConfigMissing
deriving DecidableEq, BEq, Repr

/-- The uniquely named XML nodes that the two `create_mcpat_xml`
functions address via `find(".//component[@name=...]")`.
`core i`, `icache i`, `dcache i`, `l2 i` belong to the fuller template of
custom_converter.py (the template only contains index 0); `coreB`,
`l1iCache`, `l1dCache`, `l2Cache`, `mainMemory` belong to the template of
backup.py. -/
inductive NodeId
  | system
  | core (i : Nat)
  | icache (i : Nat)
  | dcache (i : Nat)
  | l2 (i : Nat)
  | coreB
  | l1iCache
  | l1dCache
  | l2Cache
  | mainMemory
deriving DecidableEq, Repr

/-- A field address: the node holding the `param`/`stat` element and the
element's `name` attribute. -/
abbrev FieldKey := NodeId × String

/-- The mutable state of the XML tree: the `value` attribute of each
addressable field. -/
abbrev Fields := List (FieldKey × String)

/-- Read a field (`node.find(...).attrib["value"]`); `none` models a
failed `find`. -/
def getF : Fields → FieldKey → Option String
  | [], _ => none
  | p :: rest, k => if p.1 = k then some p.2 else getF rest k

/-- Overwrite a field (`node.find(...).attrib["value"] = v`).  A write to
an absent key leaves the map unchanged; the code only writes fields its
template contains. -/
def setF : Fields → FieldKey → String → Fields
  | [], _, _ => []
  | p :: rest, k, v => (if p.1 = k then (k, v) else p) :: setF rest k v

/-- The key set of a field map (the template structure, which populate
never changes). -/
def keysF (fs : Fields) : List FieldKey := fs.map Prod.fst

/-- Does the template contain the given node
(`root.find(".//component[@name=...]") is not None`)?  Determined by the
key set alone. -/
def hasNode (fs : Fields) (n : NodeId) : Bool :=
  (keysF fs).any (fun k => k.1 = n)

/-- Association-list lookup modelling Python `dict.__getitem__` /
`dict.get` hit-or-miss. -/
def dget {α : Type} : List (String × α) → String → Option α
  | [], _ => none
  | p :: rest, k => if p.1 = k then some p.2 else dget rest k

/-- Dictionary insertion with overwrite (`d[k] = v`). -/
def dinsert {α : Type} (fs : List (String × α)) (k : String) (v : α) :
    List (String × α) :=
  if fs.any (fun p => p.1 = k) then
    fs.map (fun p => if p.1 = k then (k, v) else p)
  else
    fs ++ [(k, v)]

/-- Is the line blank after `line.strip()` (all characters whitespace)? -/
def isBlank (line : String) : Bool := line.toList.all Char.isWhitespace

/-- Strip leading and trailing whitespace (`str.strip()`). -/
def charStrip (cs : List Char) : List Char :=
  ((cs.dropWhile Char.isWhitespace).reverse.dropWhile Char.isWhitespace).reverse

/-- Is `pat` a prefix of `cs` (character-wise)? -/
def listStartsWith : List Char → List Char → Bool
  | [], _ => true
  | _ :: _, [] => false
  | p :: ps, c :: cs => p = c && listStartsWith ps cs

/-- Does `cs` contain `pat` as a contiguous subsequence
(Python `pat in line`)? -/
def listContainsSeq (pat : List Char) : List Char → Bool
  | [] => listStartsWith pat []
  | c :: cs => listStartsWith pat (c :: cs) || listContainsSeq pat cs

/-- Python `str.split()` with no argument: split on whitespace runs,
discarding empty tokens (single pass with an accumulator of the current
token, reversed). -/
def splitWsAux (acc : List Char) : List Char → List String
  | [] => if acc.isEmpty then [] else [String.mk acc.reverse]
  | c :: cs =>
    if c.isWhitespace then
      if acc.isEmpty then splitWsAux [] cs
      else String.mk acc.reverse :: splitWsAux [] cs
    else splitWsAux (c :: acc) cs

/-- Python `line.split()`. -/
def splitWs (s : String) : List String := splitWsAux [] s.toList

/-- Numeric value of a list of decimal digit characters. -/
def digitsToNat (ds : List Char) : Nat :=
  ds.foldl (fun a c => 10 * a + (c.toNat - 48)) 0

/-- `10^e` for a signed exponent. -/
def pow10 (e : ℤ) : ℚ :=
  if 0 ≤ e then ((10 : ℚ) ^ e.toNat) else 1 / ((10 : ℚ) ^ (-e).toNat)

/-- Python `float(s)` on a string: optional surrounding whitespace,
optional sign, a mantissa of digits with at most one dot (at least one
digit), and an optional exponent part requiring at least one digit.
Python additionally accepts `inf`/`nan` spellings and underscores between
digits; neither occurs in gem5 stats dumps and they are not modelled. -/
def pyFloat (s : String) : Option ℚ :=
  let cs0 := charStrip s.toList
  let sgncs : ℚ × List Char :=
    match cs0 with
    | '+' :: r => (1, r)
    | '-' :: r => (-1, r)
    | r => (1, r)
  let sgn := sgncs.1
  let cs := sgncs.2
  let ip := cs.takeWhile Char.isDigit
  let cs1 := cs.dropWhile Char.isDigit
  let fpcs : List Char × List Char :=
    match cs1 with
    | '.' :: r => (r.takeWhile Char.isDigit, r.dropWhile Char.isDigit)
    | r => ([], r)
  let fp := fpcs.1
  let cs2 := fpcs.2
  if ip.isEmpty && fp.isEmpty then none else
  let mant : ℚ := (digitsToNat ip : ℚ) + (digitsToNat fp : ℚ) / ((10 : ℚ) ^ fp.length)
  match cs2 with
  | [] => some (sgn * mant)
  | e :: r =>
    if e = 'e' || e = 'E' then
      let esr : ℤ × List Char :=
        match r with
        | '+' :: t => (1, t)
        | '-' :: t => (-1, t)
        | t => (1, t)
      let ed := esr.2.takeWhile Char.isDigit
      let r2 := esr.2.dropWhile Char.isDigit
      if ed.isEmpty || !r2.isEmpty then none
      else some (sgn * mant * pow10 (esr.1 * (digitsToNat ed : ℤ)))
    else none

/-- Python `int(s)` on a string: optional surrounding whitespace, optional
sign, one or more decimal digits and nothing else (digit underscores are
not modelled). -/
def pyIntParse (s : String) : Option ℤ :=
  let cs0 := charStrip s.toList
  let sgncs : ℤ × List Char :=
    match cs0 with
    | '+' :: r => (1, r)
    | '-' :: r => (-1, r)
    | r => (1, r)
  let ds := sgncs.2.takeWhile Char.isDigit
  let rest := sgncs.2.dropWhile Char.isDigit
  if ds.isEmpty || !rest.isEmpty then none
  else some (sgncs.1 * (digitsToNat ds : ℤ))

/-- Python `int(x)` on a number: truncation toward zero. -/
def pyInt (q : ℚ) : ℤ :=
  if q < 0 then -(((-q.num).toNat / q.den : ℕ) : ℤ) else ((q.num.toNat / q.den : ℕ) : ℤ)

/-- `str(int(x))` as written into almost every stat field. -/
def intStr (q : ℚ) : String := toString (pyInt q)

/-- `str(x)` for a Python float.  An integral value renders as `n.0`
(matching Python); the rendering of non-integral rationals is a stand-in
for the binary64 shortest repr, which no claim evaluates concretely. -/
def floatStr (q : ℚ) : String :=
  if q.den = 1 then toString q.num ++ ".0" else toString q

/-- `str(x)` / f-string rendering of a JSON number: an integral value is a
Python `int` and renders without a decimal point. -/
def pyNumStr (q : ℚ) : String :=
  if q.den = 1 then toString q.num else toString q

/-- `str(x)` / f-string rendering of a JSON value.  The container cases
are placeholders (no claim renders a container). -/
def jsonPyStr : Json → String
  | Json.null => "None"
  | Json.bool true => "True"
  | Json.bool false => "False"
  | Json.num q => pyNumStr q
  | Json.str s => s
  | Json.arr _ => "[...]"
  | Json.obj _ => "\x7b...\x7d"

/-- Python subscript `j[k]` with a string key: `KeyError` on a missing
dictionary key, `TypeError` when `j` is not a dictionary. -/
def pySub (j : Json) (k : String) : Except PyErr Json :=
  match j with
  | Json.obj fs =>
    match dget fs k with
    | some v => Except.ok v
    | none => Except.error (PyErr.keyError k)
  | _ => Except.error (PyErr.typeError "object is not subscriptable by str")

/-- Python subscript `j[i]` with an integer index: `IndexError` past the
end of a list, `KeyError` on a dictionary, `TypeError` otherwise. -/
def pyIndex (j : Json) (i : Nat) : Except PyErr Json :=
  match j with
  | Json.arr xs =>
    match xs.get? i with
    | some v => Except.ok v
    | none => Except.error PyErr.indexError
  | Json.obj _ => Except.error (PyErr.keyError (toString i))
  | _ => Except.error (PyErr.typeError "object is not subscriptable by int")

/-- Python `j.get(k, dflt)`: `AttributeError` when `j` is not a
dictionary (no `.get` attribute). -/
def dictGet (j : Json) (k : String) (dflt : Json) : Except PyErr Json :=
  match j with
  | Json.obj fs => Except.ok ((dget fs k).getD dflt)
  | _ => Except.error (PyErr.attributeError "object has no attribute get")

/-- Python `int(x)` on a JSON value: numbers truncate toward zero, strings
are parsed (`ValueError` on failure), booleans coerce, anything else is a
`TypeError`. -/
def pyIntOfJson (j : Json) : Except PyErr ℤ :=
  match j with
  | Json.num q => Except.ok (pyInt q)
  | Json.str s =>
    match pyIntParse s with
    | some n => Except.ok n
    | none => Except.error (PyErr.valueError "invalid literal for int with base 10")
  | Json.bool b => Except.ok (if b then 1 else 0)
  | _ => Except.error (PyErr.typeError "int argument must be a string or a number")

/-- `s.replace("B", "")`: drop every `B` character. -/
def stripB (s : String) : String :=
  String.mk (s.toList.filter (fun c => c ≠ 'B'))

namespace CustomConverter

/-- A stat table of custom_converter.py: values are floats (the parser
stores `float(value)`). -/
abbrev StatTable := List (String × ℚ)

/-- Does the line contain the separator marker of ten dashes
(`'----------' in line`)? -/
def containsTenDashes (line : String) : Bool :=
  listContainsSeq "----------".toList line.toList

/-- Is the character in the regex class `[a-zA-Z0-9_.:-]`? -/
def isKeyChar (c : Char) : Bool :=
  c.isAlpha || c.isDigit || c = '_' || c = '.' || c = ':' || c = '-'

/-- Is the character in the regex class `[\d.]`? -/
def isValChar (c : Char) : Bool :=
  c.isDigit || c = '.'

/-- The regex match of `parse_stats` with pattern
`^\s*([a-zA-Z0-9_.:-]+)\s+([\d.]+e?[-+]?\d*)\s*`:
returns the key group and the value group on success.  The character
classes of consecutive mandatory parts are disjoint, so greedy matching
is deterministic and everything after the `[\d.]+` run is optional. -/
def matchStatLine (line : String) : Option (String × String) :=
  let cs := line.toList.dropWhile Char.isWhitespace
  let key := cs.takeWhile isKeyChar
  let rest := cs.dropWhile isKeyChar
  if key.isEmpty then none else
  let ws := rest.takeWhile Char.isWhitespace
  let rest2 := rest.dropWhile Char.isWhitespace
  if ws.isEmpty then none else
  let mant := rest2.takeWhile isValChar
  let rest3 := rest2.dropWhile isValChar
  if mant.isEmpty then none else
  let withE : List Char × List Char :=
    match rest3 with
    | 'e' :: r => (mant ++ ['e'], r)
    | r => (mant, r)
  let withSign : List Char × List Char :=
    if withE.1.getLast? = some 'e' then
      match withE.2 with
      | '+' :: r => (withE.1 ++ ['+'], r)
      | '-' :: r => (withE.1 ++ ['-'], r)
      | r => (withE.1, r)
    else withE
  let tailDigits := withSign.2.takeWhile Char.isDigit
  some (String.mk key, String.mk (withSign.1 ++ tailDigits))

/-- One line of `parse_stats` of custom_converter.py: skip blank and
separator lines, apply the regex, store `float(value)` and silently drop
the line when the conversion raises `ValueError`. -/
def statStep (stats : StatTable) (line : String) : StatTable :=
  if isBlank line || containsTenDashes line then stats
  else
    match matchStatLine line with
    | none => stats
    | some kv =>
      match pyFloat kv.2 with
      | some q => dinsert stats kv.1 q
      | none => stats

/-- `parse_stats` of custom_converter.py over the list of input lines. -/
def parse_stats (lines : List String) : StatTable :=
  lines.foldl statStep []

/-- The `stats_map` alias table of `get_stat_value`
(custom_converter.py, lines 36-53). -/
def stats_map : List (String × List String) :=
  [("total_cycles", ["system.cpu.numCycles", "system.cpu_clk_domain.num_cycles"]),
   ("committedInsts", ["system.cpu.committedInsts", "sim_insts"]),
   ("int_insts", ["system.cpu.committed_int_insts"]),
   ("fp_insts", ["system.cpu.committed_fp_insts"]),
   ("branches", ["system.cpu.branches"]),
   ("branchMispredicts", ["system.cpu.branchMispredictions"]),
   ("icache.ReadReq::total", ["system.l1icaches.ReadReq::total"]),
   ("icache.ReadReq::miss", ["system.l1icaches.ReadReq::miss"]),
   ("dcache.ReadReq::total", ["system.l1dcaches.ReadReq::total"]),
   ("dcache.ReadReq::miss", ["system.l1dcaches.ReadReq::miss"]),
   ("dcache.WriteReq::total", ["system.l1dcaches.WriteReq::total"]),
   ("dcache.WriteReq::miss", ["system.l1dcaches.WriteReq::miss"]),
   ("l2cache.ReadReq::total", ["system.l2cache.ReadReq::total"]),
   ("l2cache.ReadReq::miss", ["system.l2cache.ReadReq::miss"]),
   ("l2cache.WriteReq::total", ["system.l2cache.WriteReq::total"]),
   ("l2cache.WriteReq::miss", ["system.l2cache.WriteReq::miss"])]

/-- `stats_map.get(key, [])`. -/
def aliasesFor (key : String) : List String :=
  (dget stats_map key).getD []

/-- The alias loop of `get_stat_value`: the value of the first alias
present in the table. -/
def firstAliasHit (stats : StatTable) : List String → Option ℚ
  | [] => none
  | a :: rest =>
    match dget stats a with
    | some v => some v
    | none => firstAliasHit stats rest

/-- `get_stat_value(stats, key, default)` of custom_converter.py: direct
hit, else first alias hit, else warn and return `float(default)` (the
default is already a number in this model, so the conversion is the
identity).  The second component is the list of warnings printed. -/
def get_stat_value (stats : StatTable) (key : String) (dflt : ℚ) :
    ℚ × List Warning :=
  match dget stats key with
  | some v => (v, [])
  | none =>
    match firstAliasHit stats (aliasesFor key) with
    | some v => (v, [])
    | none => (dflt, [Warning.missingStat key dflt])

/-- `parse_config` of custom_converter.py on the value parsed by
`json.load`. -/
def parse_config (j : Json) : Except PyErr Json :=
  match j with
  | Json.arr (x :: _) => Except.ok x
  | Json.arr [] => Except.error (PyErr.valueError "config.json is an empty list.")
  | _ => Except.ok j

/-- The entry check of `create_mcpat_xml` (lines 79-82): a non-empty list
is replaced by its first element without further checking; anything that
is then not a dictionary raises `TypeError`. -/
def normalizeConfig (j : Json) : Except PyErr Json :=
  match j with
  | Json.arr (x :: _) => Except.ok x
  | Json.obj fs => Except.ok (Json.obj fs)
  | _ => Except.error (PyErr.typeError "config object must be a dictionary.")

/-- The fields of the embedded XML template of custom_converter.py that
`create_mcpat_xml` reads or writes, with their literal template values,
plus the `idle_cycles` stats (never touched by the code). -/
def template : Fields :=
  [((NodeId.system, "number_of_cores"), "1"),
   ((NodeId.system, "number_of_L2s"), "1"),
   ((NodeId.system, "target_core_clockrate"), "1000.0"),
   ((NodeId.system, "total_cycles"), "100000"),
   ((NodeId.system, "idle_cycles"), "0"),
   ((NodeId.system, "busy_cycles"), "100000"),
   ((NodeId.core 0, "clock_rate"), "1000.0"),
   ((NodeId.core 0, "total_instructions"), "400000"),
   ((NodeId.core 0, "int_instructions"), "200000"),
   ((NodeId.core 0, "fp_instructions"), "100000"),
   ((NodeId.core 0, "branch_instructions"), "100000"),
   ((NodeId.core 0, "branch_mispredictions"), "0"),
   ((NodeId.core 0, "load_instructions"), "0"),
   ((NodeId.core 0, "store_instructions"), "50000"),
   ((NodeId.core 0, "committed_instructions"), "400000"),
   ((NodeId.core 0, "committed_int_instructions"), "200000"),
   ((NodeId.core 0, "committed_fp_instructions"), "100000"),
   ((NodeId.core 0, "total_cycles"), "100000"),
   ((NodeId.core 0, "idle_cycles"), "0"),
   ((NodeId.core 0, "busy_cycles"), "100000"),
   ((NodeId.icache 0, "icache_config"), "32768,64,8,1,10,10,64,0"),
   ((NodeId.dcache 0, "dcache_config"), "32768,64,8,1,10,10,64,1"),
   ((NodeId.l2 0, "read_accesses"), "200000"),
   ((NodeId.l2 0, "write_accesses"), "27276")]

/-- The size expression of the cache-geometry block:
`int(cfg["size"].replace("B", "")) if isinstance(cfg["size"], str) else cfg["size"]`,
rendered as it appears inside the f-string. -/
def sizeStrOf (sizeJ : Json) : Except PyErr String :=
  match sizeJ with
  | Json.str s =>
    match pyIntParse (stripB s) with
    | some n => Except.ok (toString n)
    | none => Except.error (PyErr.valueError "invalid literal for int with base 10")
  | _ => Except.ok (jsonPyStr sizeJ)

/-- The lookups of the `try` block handling one L1 cache-geometry entry:
`config["board"]["cache_hierarchy"][listKey][i]`, then the size
expression, then `["assoc"]`.  `KeyError` and `IndexError` are caught
(result `none`, for the warning path); any other exception propagates. -/
def geomLookup (config : Json) (listKey : String) (i : Nat) :
    Except PyErr (Option (String × Json)) :=
  match (do
      let b ← pySub config "board"
      let ch ← pySub b "cache_hierarchy"
      let lst ← pySub ch listKey
      let entry ← pyIndex lst i
      let sizeJ ← pySub entry "size"
      let sizeStr ← sizeStrOf sizeJ
      let assocJ ← pySub entry "assoc"
      Except.ok (sizeStr, assocJ) : Except PyErr (String × Json)) with
  | Except.ok v => Except.ok (some v)
  | Except.error (PyErr.keyError _) => Except.ok none
  | Except.error PyErr.indexError => Except.ok none
  | Except.error e => Except.error e

/-- The comma-joined cache-geometry string
`f"{size},{cls},{assoc},1,10,10,{cls},0/1"`. -/
def geomString (sizeStr : String) (clsJ : Json) (assocJ : Json) (flag : String) : String :=
  sizeStr ++ "," ++ jsonPyStr clsJ ++ "," ++ jsonPyStr assocJ ++ ",1,10,10," ++
    jsonPyStr clsJ ++ "," ++ flag

/-- One guarded cache-geometry block of the per-core loop (lines 340-356):
skip when the cache component is absent from the template; otherwise
write the geometry string on success and print one warning when the
config lookup raised `KeyError`/`IndexError`. -/
def cacheGeomBlock (config : Json) (clsJ : Json) (listKey : String) (i : Nat)
    (node : NodeId) (attr : String) (flag : String) (warn : Warning)
    (fs : Fields) : Except PyErr (Fields × List Warning) :=
  if hasNode fs node then
    match geomLookup config listKey i with
    | Except.ok (some sv) =>
      Except.ok (setF fs (node, attr) (geomString sv.1 clsJ sv.2 flag), [])
    | Except.ok none => Except.ok (fs, [warn])
    | Except.error e => Except.error e
  else Except.ok (fs, [])

end CustomConverter

namespace CustomConverter

/-- `num_cores = len(cores_list) if isinstance(cores_list, list) else 1`. -/
def numCoresOf (coresJ : Json) : Nat :=
  match coresJ with
  | Json.arr xs => xs.length
  | _ => 1

/-- The system-parameter block of `create_mcpat_xml` (lines 292-304).
The `if system_node:` guard is omitted: the fixed template always
contains the `system` component (and skipping it would leave
`clock_rate_mhz` undefined for the core loop).  Returns the updated
state together with the `total_cycles` and `clock_rate_mhz` values the
later blocks reuse. -/
def systemSection (stats : StatTable) (numCores : Nat) (fs : Fields) :
    (Fields × List Warning) × ℚ × ℚ :=
  let fs := setF fs (NodeId.system, "number_of_cores") (toString numCores)
  let tcw := get_stat_value stats "total_cycles" 0
  let fs := setF fs (NodeId.system, "total_cycles") (intStr tcw.1)
  let fs := setF fs (NodeId.system, "busy_cycles") (intStr tcw.1)
  let hzw := get_stat_value stats "system.clk_domain.clock" 1000000000
  let mhz := hzw.1 / 1000000
  let fs := setF fs (NodeId.system, "target_core_clockrate") (floatStr mhz)
  ((fs, tcw.2 ++ hzw.2), tcw.1, mhz)

/-- One iteration of the per-core loop (lines 307-356): everything is
guarded by `if core_node:`, so an index whose `core{i}` component is
absent from the template changes nothing. -/
def coreBody (stats : StatTable) (config : Json) (clsJ : Json)
    (mhz tc : ℚ) (i : Nat) (st : Fields × List Warning) :
    Except PyErr (Fields × List Warning) :=
  if hasNode st.1 (NodeId.core i) then
    let fs := setF st.1 (NodeId.core i, "clock_rate") (floatStr mhz)
    let ci := get_stat_value stats "committedInsts" 0
    let ii := get_stat_value stats "int_insts" 0
    let fi := get_stat_value stats "fp_insts" 0
    let br := get_stat_value stats "branches" 0
    let bm := get_stat_value stats "branchMispredicts" 0
    let dr := get_stat_value stats ("system.l1dcaches" ++ toString i ++ ".ReadReq::total") 0
    let dw := get_stat_value stats ("system.l1dcaches" ++ toString i ++ ".WriteReq::total") 0
    let fs := setF fs (NodeId.core i, "total_instructions") (intStr ci.1)
    let fs := setF fs (NodeId.core i, "int_instructions") (intStr ii.1)
    let fs := setF fs (NodeId.core i, "fp_instructions") (intStr fi.1)
    let fs := setF fs (NodeId.core i, "branch_instructions") (intStr br.1)
    let fs := setF fs (NodeId.core i, "branch_mispredictions") (intStr bm.1)
    let fs := setF fs (NodeId.core i, "load_instructions") (intStr dr.1)
    let fs := setF fs (NodeId.core i, "store_instructions") (intStr dw.1)
    let fs := setF fs (NodeId.core i, "committed_instructions") (intStr ci.1)
    let fs := setF fs (NodeId.core i, "committed_int_instructions") (intStr ii.1)
    let fs := setF fs (NodeId.core i, "committed_fp_instructions") (intStr fi.1)
    let fs := setF fs (NodeId.core i, "total_cycles") (intStr tc)
    let fs := setF fs (NodeId.core i, "busy_cycles") (intStr tc)
    match cacheGeomBlock config clsJ "l1icaches" i (NodeId.icache i)
        "icache_config" "0" Warning.l1iConfigMissing fs with
    | Except.error e => Except.error e
    | Except.ok fw1 =>
      match cacheGeomBlock config clsJ "l1dcaches" i (NodeId.dcache i)
          "dcache_config" "1" Warning.l1dConfigMissing fw1.1 with
      | Except.error e => Except.error e
      | Except.ok fw2 =>
        Except.ok (fw2.1,
          st.2 ++ ci.2 ++ ii.2 ++ fi.2 ++ br.2 ++ bm.2 ++ dr.2 ++ dw.2 ++ fw1.2 ++ fw2.2)
  else Except.ok st

/-- `for i in range(num_cores):` over an explicit index list. -/
def coreLoop (stats : StatTable) (config : Json) (clsJ : Json)
    (mhz tc : ℚ) : List Nat → (Fields × List Warning) →
    Except PyErr (Fields × List Warning)
  | [], st => Except.ok st
  | i :: rest, st =>
    match coreBody stats config clsJ mhz tc i st with
    | Except.error e => Except.error e
    | Except.ok st2 => coreLoop stats config clsJ mhz tc rest st2

/-- `num_l2s = int(system_node.find(...).attrib["value"])` (line 359),
read back from the current tree. -/
def l2Count (fs : Fields) : Except PyErr Nat :=
  match getF fs (NodeId.system, "number_of_L2s") with
  | none => Except.error (PyErr.attributeError "NoneType object has no attribute attrib")
  | some s =>
    match pyIntParse s with
    | some n => Except.ok n.toNat
    | none => Except.error (PyErr.valueError "invalid literal for int with base 10")

/-- One iteration of the L2 loop (lines 360-367); the stat keys are
constant (the f-strings contain no placeholder). -/
def l2Body (stats : StatTable) (i : Nat) (st : Fields × List Warning) :
    Fields × List Warning :=
  if hasNode st.1 (NodeId.l2 i) then
    let lr := get_stat_value stats "system.l2cache.ReadReq::total" 0
    let lw := get_stat_value stats "system.l2cache.WriteReq::total" 0
    (setF (setF st.1 (NodeId.l2 i, "read_accesses") (intStr lr.1))
       (NodeId.l2 i, "write_accesses") (intStr lw.1),
     st.2 ++ lr.2 ++ lw.2)
  else st

/-- `for i in range(num_l2s):`. -/
def l2Loop (stats : StatTable) : List Nat → (Fields × List Warning) →
    Fields × List Warning
  | [], st => st
  | i :: rest, st => l2Loop stats rest (l2Body stats i st)

/-- `create_mcpat_xml` of custom_converter.py: entry type check,
cache-line size and core count from the config, system block, per-core
loop, L2 loop.  The result is the final field map of the template
together with the warnings printed, or the uncaught exception. -/
def create_mcpat_xml (stats : StatTable) (config0 : Json) :
    Except PyErr (Fields × List Warning) :=
  match normalizeConfig config0 with
  | Except.error e => Except.error e
  | Except.ok config =>
    match dictGet config "board" (Json.obj []) with
    | Except.error e => Except.error e
    | Except.ok boardJ =>
      match dictGet boardJ "cache_line_size" (Json.num 64) with
      | Except.error e => Except.error e
      | Except.ok clsJ =>
        match dictGet config "board" (Json.obj []) with
        | Except.error e => Except.error e
        | Except.ok board2 =>
          match dictGet board2 "processor" (Json.obj []) with
          | Except.error e => Except.error e
          | Except.ok procJ =>
            match dictGet procJ "cores" (Json.arr []) with
            | Except.error e => Except.error e
            | Except.ok coresJ =>
              let numCores := numCoresOf coresJ
              let sysRes := systemSection stats numCores template
              match coreLoop stats config clsJ sysRes.2.2 sysRes.2.1
                  (List.range numCores) sysRes.1 with
              | Except.error e => Except.error e
              | Except.ok st =>
                match l2Count st.1 with
                | Except.error e => Except.error e
                | Except.ok nL2 => Except.ok (l2Loop stats (List.range nL2) st)

end CustomConverter

namespace Backup

/-- A stat table of backup.py: `parse_stats` stores the second
whitespace token as a raw string; numeric conversion is deferred to
`get_stat_value`. -/
abbrev StatTable := List (String × String)

/-- `get_stat_value(stats, key, default)` of backup.py:
`float(stats.get(key, default))` with `ValueError`/`TypeError` mapped to
the default.  No aliases are tried and no warning is printed. -/
def get_stat_value (stats : StatTable) (key : String) (dflt : ℚ) : ℚ :=
  match dget stats key with
  | some s => (pyFloat s).getD dflt
  | none => dflt

/-- `'---' in line`. -/
def containsTripleDash (line : String) : Bool :=
  listContainsSeq "---".toList line.toList

/-- Python `str.split()` with no argument. -/
def pySplit (s : String) : List String := splitWs s

/-- One line of `parse_stats` of backup.py: skip blank lines, lines
containing `---` and lines starting with `End`; otherwise store the
second token under the first, unexamined. -/
def statStep (stats : StatTable) (line : String) : StatTable :=
  if isBlank line || containsTripleDash line ||
      listStartsWith "End".toList line.toList then stats
  else
    match pySplit line with
    | k :: v :: _ => dinsert stats k v
    | _ => stats

/-- `parse_stats` of backup.py over the list of input lines. -/
def parse_stats (lines : List String) : StatTable :=
  lines.foldl statStep []

/-- `parse_config` of backup.py: returns the value parsed by `json.load`
unchanged, with no sequence handling and no type check. -/
def parse_config (j : Json) : Json := j

/-- Every param field of the embedded XML template of backup.py with its
literal default value. -/
def template : Fields :=
  [((NodeId.system, "number_of_cores"), "1"),
   ((NodeId.system, "number_of_L1I_caches"), "1"),
   ((NodeId.system, "number_of_L1D_caches"), "1"),
   ((NodeId.system, "number_of_L2_caches"), "1"),
   ((NodeId.system, "number_of_L3_caches"), "0"),
   ((NodeId.system, "number_of_NoC"), "0"),
   ((NodeId.system, "target_core_clockrate"), "0"),
   ((NodeId.system, "total_cycles"), "0"),
   ((NodeId.system, "peak_power_per_chip"), "0"),
   ((NodeId.system, "total_insts"), "0"),
   ((NodeId.system, "number_of_L1Directories"), "0"),
   ((NodeId.system, "homogeneous_L1Directories"), "1"),
   ((NodeId.coreB, "clock_rate"), "0"),
   ((NodeId.coreB, "total_inst"), "0"),
   ((NodeId.coreB, "int_inst"), "0"),
   ((NodeId.coreB, "fp_inst"), "0"),
   ((NodeId.coreB, "load_inst"), "0"),
   ((NodeId.coreB, "store_inst"), "0"),
   ((NodeId.coreB, "committed_inst"), "0"),
   ((NodeId.coreB, "committed_int_inst"), "0"),
   ((NodeId.coreB, "committed_fp_inst"), "0"),
   ((NodeId.coreB, "rob_accesses"), "0"),
   ((NodeId.coreB, "issue_queue_accesses"), "0"),
   ((NodeId.coreB, "int_regfile_reads"), "0"),
   ((NodeId.coreB, "fp_regfile_reads"), "0"),
   ((NodeId.coreB, "int_regfile_writes"), "0"),
   ((NodeId.coreB, "fp_regfile_writes"), "0"),
   ((NodeId.coreB, "rename_accesses"), "0"),
   ((NodeId.coreB, "rob_reads"), "0"),
   ((NodeId.coreB, "rob_writes"), "0"),
   ((NodeId.coreB, "L1I_hits"), "0"),
   ((NodeId.coreB, "L1I_misses"), "0"),
   ((NodeId.coreB, "L1D_hits"), "0"),
   ((NodeId.coreB, "L1D_misses"), "0"),
   ((NodeId.coreB, "L2_hits"), "0"),
   ((NodeId.coreB, "L2_misses"), "0"),
   ((NodeId.coreB, "Instruction_Fetch_Buffer_reads"), "0"),
   ((NodeId.coreB, "Instruction_Fetch_Buffer_writes"), "0"),
   ((NodeId.coreB, "ITLB_accesses"), "0"),
   ((NodeId.coreB, "ITLB_misses"), "0"),
   ((NodeId.coreB, "DTLB_accesses"), "0"),
   ((NodeId.coreB, "DTLB_misses"), "0"),
   ((NodeId.coreB, "branch_insts"), "0"),
   ((NodeId.coreB, "branch_mispredictions"), "0"),
   ((NodeId.l1iCache, "cache_size"), "0"),
   ((NodeId.l1iCache, "line_size"), "0"),
   ((NodeId.l1iCache, "associativity"), "0"),
   ((NodeId.l1iCache, "bank"), "1"),
   ((NodeId.l1iCache, "sequential_access"), "true"),
   ((NodeId.l1iCache, "read_accesses"), "0"),
   ((NodeId.l1iCache, "write_accesses"), "0"),
   ((NodeId.l1iCache, "total_accesses"), "0"),
   ((NodeId.l1iCache, "total_reads"), "0"),
   ((NodeId.l1iCache, "total_writes"), "0"),
   ((NodeId.l1dCache, "cache_size"), "0"),
   ((NodeId.l1dCache, "line_size"), "0"),
   ((NodeId.l1dCache, "associativity"), "0"),
   ((NodeId.l1dCache, "bank"), "1"),
   ((NodeId.l1dCache, "sequential_access"), "true"),
   ((NodeId.l1dCache, "read_accesses"), "0"),
   ((NodeId.l1dCache, "write_accesses"), "0"),
   ((NodeId.l1dCache, "total_accesses"), "0"),
   ((NodeId.l1dCache, "total_reads"), "0"),
   ((NodeId.l1dCache, "total_writes"), "0"),
   ((NodeId.l2Cache, "cache_size"), "0"),
   ((NodeId.l2Cache, "line_size"), "0"),
   ((NodeId.l2Cache, "associativity"), "0"),
   ((NodeId.l2Cache, "bank"), "1"),
   ((NodeId.l2Cache, "sequential_access"), "true"),
   ((NodeId.l2Cache, "read_accesses"), "0"),
   ((NodeId.l2Cache, "write_accesses"), "0"),
   ((NodeId.l2Cache, "total_accesses"), "0"),
   ((NodeId.l2Cache, "total_reads"), "0"),
   ((NodeId.l2Cache, "total_writes"), "0"),
   ((NodeId.mainMemory, "peak_memory_bw"), "25.6"),
   ((NodeId.mainMemory, "ext_dram_accesses"), "0")]

/-- The system-parameter block (lines 146-156).  The `if system_node:`
guard is omitted: the template always contains the node.  Returns the
updated fields and `clock_rate_mhz` for the core block. -/
def systemSection (stats : StatTable) (fs : Fields) : Fields × ℚ :=
  let ti := get_stat_value stats "simInsts" 0
  let fs := setF fs (NodeId.system, "total_insts") (intStr ti)
  let tc := get_stat_value stats "board.processor.cores.core.tickCycles" 0
  let fs := setF fs (NodeId.system, "total_cycles") (intStr tc)
  let hz := get_stat_value stats "simFreq" 1000000000000
  let mhz := hz / 1000000
  (setF fs (NodeId.system, "target_core_clockrate") (floatStr mhz), mhz)

/-- The core-parameter block (lines 159-206); writes in source order.
(The source swaps the `dtb`/`itb` stat names between the ITLB and DTLB
fields; the model reproduces that.) -/
def coreSection (stats : StatTable) (mhz : ℚ) (fs : Fields) : Fields :=
  let fs := setF fs (NodeId.coreB, "clock_rate") (floatStr mhz)
  let ti := get_stat_value stats "simInsts" 0
  let fs := setF fs (NodeId.coreB, "total_inst") (intStr ti)
  let fs := setF fs (NodeId.coreB, "committed_inst") (intStr ti)
  let ld := get_stat_value stats "board.cache_hierarchy.l1dcaches.ReadReq.accesses::total" 0
  let sr := get_stat_value stats "board.cache_hierarchy.l1dcaches.WriteReq.accesses::total" 0
  let fs := setF fs (NodeId.coreB, "int_inst")
    (intStr (get_stat_value stats "board.processor.cores.core.int_insts" 0))
  let fs := setF fs (NodeId.coreB, "fp_inst")
    (intStr (get_stat_value stats "board.processor.cores.core.fp_insts" 0))
  let fs := setF fs (NodeId.coreB, "load_inst") (intStr ld)
  let fs := setF fs (NodeId.coreB, "store_inst") (intStr sr)
  let fs := setF fs (NodeId.coreB, "committed_int_inst")
    (intStr (get_stat_value stats "board.processor.cores.core.committed_int_insts" 0))
  let fs := setF fs (NodeId.coreB, "committed_fp_inst")
    (intStr (get_stat_value stats "board.processor.cores.core.committed_fp_insts" 0))
  let fs := setF fs (NodeId.coreB, "rob_accesses")
    (intStr (get_stat_value stats "board.processor.cores.core.rob_accesses" 0))
  let fs := setF fs (NodeId.coreB, "issue_queue_accesses")
    (intStr (get_stat_value stats "board.processor.cores.core.issue_queue_accesses" 0))
  let fs := setF fs (NodeId.coreB, "int_regfile_reads")
    (intStr (get_stat_value stats "board.processor.cores.core.int_regfile_reads" 0))
  let fs := setF fs (NodeId.coreB, "fp_regfile_reads")
    (intStr (get_stat_value stats "board.processor.cores.core.fp_regfile_reads" 0))
  let fs := setF fs (NodeId.coreB, "int_regfile_writes")
    (intStr (get_stat_value stats "board.processor.cores.core.int_regfile_writes" 0))
  let fs := setF fs (NodeId.coreB, "fp_regfile_writes")
    (intStr (get_stat_value stats "board.processor.cores.core.fp_regfile_writes" 0))
  let fs := setF fs (NodeId.coreB, "rename_accesses")
    (intStr (get_stat_value stats "board.processor.cores.core.rename_accesses" 0))
  let fs := setF fs (NodeId.coreB, "rob_reads")
    (intStr (get_stat_value stats "board.processor.cores.core.rob_reads" 0))
  let fs := setF fs (NodeId.coreB, "rob_writes")
    (intStr (get_stat_value stats "board.processor.cores.core.rob_writes" 0))
  let fs := setF fs (NodeId.coreB, "L1I_hits")
    (intStr (get_stat_value stats "board.cache_hierarchy.l1icaches.overallHits::total" 0))
  let fs := setF fs (NodeId.coreB, "L1I_misses")
    (intStr (get_stat_value stats "board.cache_hierarchy.l1icaches.overallMisses::total" 0))
  let fs := setF fs (NodeId.coreB, "L1D_hits")
    (intStr (get_stat_value stats "board.cache_hierarchy.l1dcaches.overallHits::total" 0))
  let fs := setF fs (NodeId.coreB, "L1D_misses")
    (intStr (get_stat_value stats "board.cache_hierarchy.l1dcaches.overallMisses::total" 0))
  let fs := setF fs (NodeId.coreB, "L2_hits")
    (intStr (get_stat_value stats "board.cache_hierarchy.l2cache.overallHits::total" 0))
  let fs := setF fs (NodeId.coreB, "L2_misses")
    (intStr (get_stat_value stats "board.cache_hierarchy.l2cache.overallMisses::total" 0))
  let fs := setF fs (NodeId.coreB, "ITLB_accesses")
    (intStr (get_stat_value stats "board.processor.cores.core.mmu.dtb.accesses" 0))
  let fs := setF fs (NodeId.coreB, "ITLB_misses")
    (intStr (get_stat_value stats "board.processor.cores.core.mmu.dtb.misses" 0))
  let fs := setF fs (NodeId.coreB, "DTLB_accesses")
    (intStr (get_stat_value stats "board.processor.cores.core.mmu.itb.accesses" 0))
  let fs := setF fs (NodeId.coreB, "DTLB_misses")
    (intStr (get_stat_value stats "board.processor.cores.core.mmu.itb.misses" 0))
  let fs := setF fs (NodeId.coreB, "branch_insts")
    (intStr (get_stat_value stats "board.processor.cores.core.branchPred.condPredicted" 0))
  setF fs (NodeId.coreB, "branch_mispredictions")
    (intStr (get_stat_value stats "board.processor.cores.core.branchPred.condIncorrect" 0))

/-- The `try`-block lookups of an L1 cache section:
`config["board"]["cache_hierarchy"][listKey][0]`, then `["size"]` and
`["assoc"]`.  `KeyError` and `IndexError` are caught (the warning path);
anything else propagates. -/
def l1Lookup (config : Json) (listKey : String) :
    Except PyErr (Option (Json × Json)) :=
  match (do
      let b ← pySub config "board"
      let ch ← pySub b "cache_hierarchy"
      let lst ← pySub ch listKey
      let entry ← pyIndex lst 0
      let sizeJ ← pySub entry "size"
      let assocJ ← pySub entry "assoc"
      Except.ok (sizeJ, assocJ) : Except PyErr (Json × Json)) with
  | Except.ok v => Except.ok (some v)
  | Except.error (PyErr.keyError _) => Except.ok none
  | Except.error PyErr.indexError => Except.ok none
  | Except.error e => Except.error e

/-- An L1 cache section of backup.py (lines 209-229 for L1I, 232-252 for
L1D): on a caught missing config path, print exactly one warning and
leave every field of the node at its template default; otherwise write
`str(int(size)/1024)`, the line size, the associativity and the three
access counts.  `int(size)` on a malformed string raises `ValueError`,
which is not caught. -/
def l1Section (stats : StatTable) (config : Json) (clsJ : Json)
    (listKey : String) (node : NodeId) (warn : Warning) (fs : Fields) :
    Except PyErr (Fields × List Warning) :=
  if hasNode fs node then
    match l1Lookup config listKey with
    | Except.error e => Except.error e
    | Except.ok none => Except.ok (fs, [warn])
    | Except.ok (some sa) =>
      match pyIntOfJson sa.1 with
      | Except.error e => Except.error e
      | Except.ok n =>
        let fs := setF fs (node, "cache_size") (floatStr ((n : ℚ) / 1024))
        let fs := setF fs (node, "line_size") (jsonPyStr clsJ)
        let fs := setF fs (node, "associativity") (jsonPyStr sa.2)
        let acc := get_stat_value stats
          ("board.cache_hierarchy." ++ listKey ++ ".overallAccesses::total") 0
        let rd := get_stat_value stats
          ("board.cache_hierarchy." ++ listKey ++ ".ReadReq.accesses::total") 0
        let wr := get_stat_value stats
          ("board.cache_hierarchy." ++ listKey ++ ".WriteReq.accesses::total") 0
        let fs := setF fs (node, "total_accesses") (intStr acc)
        let fs := setF fs (node, "total_reads") (intStr rd)
        let fs := setF fs (node, "total_writes") (intStr wr)
        Except.ok (fs, [])
  else Except.ok (fs, [])

/-- The `try`-block lookups of the L2 section (lines 257-261):
`config["board"]["cache_hierarchy"]["l2cache"]` (no index), then
`["size"]` and `["assoc"]`.  Only `KeyError` is caught. -/
def l2Lookup (config : Json) : Except PyErr (Option (Json × Json)) :=
  match (do
      let b ← pySub config "board"
      let ch ← pySub b "cache_hierarchy"
      let l2c ← pySub ch "l2cache"
      let sizeJ ← pySub l2c "size"
      let assocJ ← pySub l2c "assoc"
      Except.ok (sizeJ, assocJ) : Except PyErr (Json × Json)) with
  | Except.ok v => Except.ok (some v)
  | Except.error (PyErr.keyError _) => Except.ok none
  | Except.error e => Except.error e

/-- The L2 cache section (lines 255-275), analogous to the L1 sections. -/
def l2Section (stats : StatTable) (config : Json) (clsJ : Json)
    (fs : Fields) : Except PyErr (Fields × List Warning) :=
  if hasNode fs NodeId.l2Cache then
    match l2Lookup config with
    | Except.error e => Except.error e
    | Except.ok none => Except.ok (fs, [Warning.l2ConfigMissing])
    | Except.ok (some sa) =>
      match pyIntOfJson sa.1 with
      | Except.error e => Except.error e
      | Except.ok n =>
        let fs := setF fs (NodeId.l2Cache, "cache_size") (floatStr ((n : ℚ) / 1024))
        let fs := setF fs (NodeId.l2Cache, "line_size") (jsonPyStr clsJ)
        let fs := setF fs (NodeId.l2Cache, "associativity") (jsonPyStr sa.2)
        let acc := get_stat_value stats "board.cache_hierarchy.l2cache.overallAccesses::total" 0
        let rd := get_stat_value stats "board.cache_hierarchy.l2cache.ReadReq.accesses::total" 0
        let wr := get_stat_value stats "board.cache_hierarchy.l2cache.WriteReq.accesses::total" 0
        let fs := setF fs (NodeId.l2Cache, "total_accesses") (intStr acc)
        let fs := setF fs (NodeId.l2Cache, "total_reads") (intStr rd)
        let fs := setF fs (NodeId.l2Cache, "total_writes") (intStr wr)
        Except.ok (fs, [])
  else Except.ok (fs, [])

/-- The main-memory section (lines 278-283): the external DRAM access
count is the sum of the resolved DRAM read count and the resolved L1D
writeback count. -/
def memSection (stats : StatTable) (fs : Fields) : Fields :=
  if hasNode fs NodeId.mainMemory then
    let dr := get_stat_value stats "board.memory.mem_ctrl.dram.numReads::total" 0
    let wb := get_stat_value stats "board.cache_hierarchy.l1dcaches.writebacks::total" 0
    setF fs (NodeId.mainMemory, "ext_dram_accesses") (intStr (dr + wb))
  else fs

/-- `create_mcpat_xml` of backup.py: cache-line size from the config
(`AttributeError` when the parsed config is not a dictionary), then the
system, core, L1I, L1D, L2 and main-memory sections in order.  Warnings
are the concatenation of the section warnings, in print order. -/
def create_mcpat_xml (stats : StatTable) (config : Json) :
    Except PyErr (Fields × List Warning) :=
  match dictGet config "board" (Json.obj []) with
  | Except.error e => Except.error e
  | Except.ok boardJ =>
    match dictGet boardJ "cache_line_size" (Json.num 64) with
    | Except.error e => Except.error e
    | Except.ok clsJ =>
      let sys := systemSection stats template
      let fs1 := coreSection stats sys.2 sys.1
      match l1Section stats config clsJ "l1icaches" NodeId.l1iCache
          Warning.l1iConfigMissing fs1 with
      | Except.error e => Except.error e
      | Except.ok r1 =>
        match l1Section stats config clsJ "l1dcaches" NodeId.l1dCache
            Warning.l1dConfigMissing r1.1 with
        | Except.error e => Except.error e
        | Except.ok r2 =>
          match l2Section stats config clsJ r2.1 with
          | Except.error e => Except.error e
          | Except.ok r3 => Except.ok (memSection stats r3.1, r1.2 ++ r2.2 ++ r3.2)

end Backup

/-- Everything that can escape the try-blocks of the two `__main__`
drivers: a missing input file, a JSON decode error, or any exception
raised during conversion. -/
inductive RunErr
  | fileNotFound
  | jsonDecodeError
  | pyErr (e : PyErr)
deriving DecidableEq, Repr

/-- The `__main__` block of custom_converter.py.  `argvLen` is
`len(sys.argv)` (the script name plus the positional arguments, so two
positional file arguments give 3); `conversion` is the outcome of the
parse-populate-write pipeline.  The result is the process exit code and
the lines printed. -/
def driver_custom (argvLen : Nat) (conversion : Except RunErr String) :
    Nat × List String :=
  if argvLen ≠ 3 then
    (1, ["Usage: python mcpat_converter.py <stats.txt> <config.json>"])
  else
    match conversion with
    | Except.ok _ => (0, ["mcpat_output.xml created successfully."])
    | Except.error _ => (0, ["An error occurred: ..."])

/-- The `__main__` block of backup.py: as `driver_custom`, with a
dedicated handler for `FileNotFoundError` before the catch-all. -/
def driver_backup (argvLen : Nat) (conversion : Except RunErr String) :
    Nat × List String :=
  if argvLen ≠ 3 then
    (1, ["Usage: python custom_converter.py <path_to_stats.txt> <path_to_config.json>"])
  else
    match conversion with
    | Except.ok _ => (0, ["Successfully generated mcpat_output.xml"])
    | Except.error RunErr.fileNotFound =>
      (0, ["Error: One or both of the files could not be found."])
    | Except.error _ => (0, ["An unexpected error occurred: ..."])

/-! ## Helpers for stating claims, and concrete inputs used by them -/

/-- The field map of a successful conversion (`[]` on an uncaught
exception, in which case every `getF` is `none`). -/
def okFields (r : Except PyErr (Fields × List Warning)) : Fields :=
  match r with
  | Except.ok p => p.1
  | Except.error _ => []

/-- The warnings of a successful conversion. -/
def okWarns (r : Except PyErr (Fields × List Warning)) : List Warning :=
  match r with
  | Except.ok p => p.2
  | Except.error _ => []

/-- Did the conversion complete without an uncaught exception? -/
def isOkRun (r : Except PyErr (Fields × List Warning)) : Bool :=
  match r with
  | Except.ok _ => true
  | Except.error _ => false

/-- The claim-side reading of the core count: the length of the sequence
at `config.board.processor.cores` when that path holds a sequence, `1`
when the path exists but holds a non-sequence, and `0` when any step of
the path is absent (the code substitutes `{}`/`[]` defaults and takes
`len([]) = 0`). -/
def coreCountAmended (cfg : Json) : Nat :=
  match cfg with
  | Json.obj top =>
    match dget top "board" with
    | some (Json.obj b) =>
      (match dget b "processor" with
       | some (Json.obj pr) =>
         (match dget pr "cores" with
          | some (Json.arr xs) => xs.length
          | some _ => 1
          | none => 0)
       | some _ => 0
       | none => 0)
    | some _ => 0
    | none => 0
  | _ => 0

/-- The claim-side reading of the resolved cache line size:
`config.get("board", {}).get("cache_line_size", 64)` on a mapping config
(the non-mapping board case aborts the run and is unreachable under a
completed conversion). -/
def cacheLineSizeOf (tfs : List (String × Json)) : Json :=
  match (dget tfs "board").getD (Json.obj []) with
  | Json.obj bfs => (dget bfs "cache_line_size").getD (Json.num 64)
  | _ => Json.num 64

/-- The config of claim C4:
`{"board": {"cache_line_size": 64, "cache_hierarchy": {"l1dcaches": [{"size": 32768, "assoc": 8}]}}}`. -/
def cfgC4board : Json :=
  Json.obj
    [("cache_line_size", Json.num 64),
     ("cache_hierarchy", Json.obj [("l1dcaches", Json.arr [Json.obj
        [("size", Json.num 32768), ("assoc", Json.num 8)]])])]

def cfgC4 : Json := Json.obj [("board", cfgC4board)]

/-- The empty config `{}`: every board path is absent. -/
def cfgEmpty : Json := Json.obj []

/-- A config whose processor has two cores and no cache hierarchy. -/
def cfgTwoCores : Json :=
  Json.obj [("board", Json.obj
    [("processor", Json.obj [("cores", Json.arr [Json.obj [], Json.obj []])])])]

/-- A config with one core and both L1 cache lists present. -/
def cfgOneCore : Json :=
  Json.obj [("board", Json.obj
    [("cache_line_size", Json.num 64),
     ("processor", Json.obj [("cores", Json.arr [Json.obj []])]),
     ("cache_hierarchy", Json.obj
       [("l1icaches", Json.arr [Json.obj
          [("size", Json.num 16384), ("assoc", Json.num 4)]]),
        ("l1dcaches", Json.arr [Json.obj
          [("size", Json.num 32768), ("assoc", Json.num 8)]])])])]

/-- A stats table resolving `total_cycles` to 5 (custom variant). -/
def statsTC5 : CustomConverter.StatTable := [("total_cycles", (5 : ℚ))]

/-- Backup-variant stats giving 100 DRAM reads and 20 L1D writebacks. -/
def statsDram : Backup.StatTable :=
  [("board.memory.mem_ctrl.dram.numReads::total", "100"),
   ("board.cache_hierarchy.l1dcaches.writebacks::total", "20")]

/-! ## Basic lemmas about the field map -/

theorem getF_setF (fs : Fields) (k k' : FieldKey) (v : String) :
    getF (setF fs k v) k' =
      if k' = k then (getF fs k').map (fun _ => v) else getF fs k' := by
  induction fs with
  | nil => simp [getF, setF]
  | cons p rest ih =>
    by_cases hk : k' = k
    · subst hk
      by_cases hp : p.1 = k'
      · simp [getF, setF, hp]
      · simp [getF, setF, hp, ih]
    · by_cases hp : p.1 = k
      · have hpk : ¬ p.1 = k' := by rw [hp]; exact fun h => hk h.symm
        have hkk : ¬ k = k' := fun h => hk h.symm
        simp [getF, setF, hp, hpk, hkk, ih, hk]
      · by_cases hpk : p.1 = k'
        · simp [getF, setF, hp, hpk, ih, hk]
        · simp [getF, setF, hp, hpk, ih, hk]

theorem keysF_setF (fs : Fields) (k : FieldKey) (v : String) :
    keysF (setF fs k v) = keysF fs := by
  induction fs with
  | nil => rfl
  | cons p rest ih =>
    have htail : keysF (setF rest k v) = keysF rest := ih
    by_cases hp : p.1 = k
    · show ((if p.1 = k then (k, v) else p).1 :: keysF (setF rest k v)) = p.1 :: keysF rest
      rw [if_pos hp, htail, hp]
    · show ((if p.1 = k then (k, v) else p).1 :: keysF (setF rest k v)) = p.1 :: keysF rest
      rw [if_neg hp, htail]

theorem getF_isSome_eq (fs : Fields) (k : FieldKey) :
    (getF fs k).isSome = (keysF fs).any (fun x => decide (x = k)) := by
  induction fs with
  | nil => rfl
  | cons p rest ih =>
    by_cases hp : p.1 = k
    · simp [getF, keysF, hp]
    · simp [getF, keysF, hp, ih]

theorem getF_isSome_congr {fs gs : Fields} (h : keysF fs = keysF gs)
    (k : FieldKey) : (getF fs k).isSome = (getF gs k).isSome := by
  rw [getF_isSome_eq, getF_isSome_eq, h]

theorem getF_eq_none_of_keysF {fs gs : Fields} (h : keysF fs = keysF gs)
    {k : FieldKey} (hg : getF gs k = none) : getF fs k = none := by
  have hh := getF_isSome_congr h k
  rw [hg] at hh
  cases hf : getF fs k with
  | none => rfl
  | some w => rw [hf] at hh; exact absurd hh (by simp)

theorem getF_setF_self_of_isSome {fs : Fields} {k : FieldKey}
    (h : (getF fs k).isSome = true) (v : String) :
    getF (setF fs k v) k = some v := by
  rw [getF_setF, if_pos rfl]
  cases hv : getF fs k with
  | none => rw [hv] at h; exact absurd h (by simp)
  | some w => simp

theorem hasNode_congr {fs gs : Fields} (h : keysF fs = keysF gs)
    (n : NodeId) : hasNode fs n = hasNode gs n := by
  rw [hasNode, hasNode, h]

/-! ## Lemmas about dictionary insertion and the alias loop -/

theorem dget_append {α : Type} (st ts : List (String × α)) (k : String) :
    dget (st ++ ts) k =
      match dget st k with
      | some v => some v
      | none => dget ts k := by
  induction st with
  | nil => simp [dget]
  | cons p rest ih =>
    by_cases hp : p.1 = k
    · simp [dget, hp]
    · simp [dget, hp, ih]

theorem dget_map_update {α : Type} (st : List (String × α)) (k k' : String) (v : α) :
    dget (st.map (fun p => if p.1 = k then (k, v) else p)) k' =
      if k' = k then (dget st k').map (fun _ => v) else dget st k' := by
  induction st with
  | nil => simp [dget]
  | cons p rest ih =>
    by_cases hk : k' = k
    · subst hk
      by_cases hp : p.1 = k'
      · simp [dget, hp]
      · simp [dget, hp, ih]
    · by_cases hp : p.1 = k
      · have hpk : ¬ p.1 = k' := by rw [hp]; exact fun h => hk h.symm
        have hkk : ¬ k = k' := fun h => hk h.symm
        simp [dget, hp, hpk, hkk, ih, hk]
      · by_cases hpk : p.1 = k'
        · simp [dget, hp, hpk, ih, hk]
        · simp [dget, hp, hpk, ih, hk]

theorem dget_isSome_any {α : Type} (st : List (String × α)) (k : String) :
    (dget st k).isSome = st.any (fun p => decide (p.1 = k)) := by
  induction st with
  | nil => rfl
  | cons p rest ih =>
    by_cases hp : p.1 = k
    · simp [dget, hp]
    · simp [dget, hp, ih]

theorem dget_dinsert {α : Type} (st : List (String × α)) (k k' : String) (v : α) :
    dget (dinsert st k v) k' = if k' = k then some v else dget st k' := by
  rw [dinsert]
  by_cases hany : st.any (fun p => decide (p.1 = k)) = true
  · rw [if_pos (by simpa using hany), dget_map_update]
    by_cases hk : k' = k
    · subst hk
      have : (dget st k').isSome = true := by rw [dget_isSome_any]; exact hany
      cases hv : dget st k' with
      | none => rw [hv] at this; exact absurd this (by simp)
      | some w => simp [hv]
    · simp [hk]
  · rw [if_neg (by simpa using hany), dget_append]
    by_cases hk : k' = k
    · subst hk
      have : (dget st k').isSome = false := by
        rw [dget_isSome_any]
        exact Bool.not_eq_true _ ▸ (by simpa using hany)
      cases hv : dget st k' with
      | none => simp [dget]
      | some w => rw [hv] at this; exact absurd this (by simp)
    · cases hv : dget st k' with
      | none => simp [dget, hk]; exact fun h => hk h.symm
      | some w => simp [hk]

theorem firstAliasHit_append_miss (stats : CustomConverter.StatTable)
    (pre rest : List String) (hpre : ∀ b ∈ pre, dget stats b = none) :
    CustomConverter.firstAliasHit stats (pre ++ rest) =
      CustomConverter.firstAliasHit stats rest := by
  induction pre with
  | nil => rfl
  | cons b bs ih =>
    have hb : dget stats b = none := hpre b (by simp)
    simp only [List.cons_append, CustomConverter.firstAliasHit, hb]
    exact ih (fun x hx => hpre x (by simp [hx]))

theorem firstAliasHit_all_miss (stats : CustomConverter.StatTable)
    (l : List String) (h : ∀ a ∈ l, dget stats a = none) :
    CustomConverter.firstAliasHit stats l = none := by
  induction l with
  | nil => rfl
  | cons a rest ih =>
    have ha : dget stats a = none := h a (by simp)
    simp only [CustomConverter.firstAliasHit, ha]
    exact ih (fun x hx => h x (by simp [hx]))

/-- **C2.** The resolver `get_stat_value` of custom_converter.py obeys
the three-step fallback order: a canonical key present in the table
resolves to the table value; otherwise the first alias of the canonical
key that is present in the table resolves to that alias's value;
otherwise the resolver emits one warning naming the missing key and the
default used and returns the default (as a float).  In particular, on
the empty table with key `total_cycles` and default 7 it returns 7.0
together with the warning. -/
theorem c2_resolver_fallback_order (stats : CustomConverter.StatTable)
    (key : String) (d : ℚ) :
    (∀ v, dget stats key = some v →
        CustomConverter.get_stat_value stats key d = (v, [])) ∧
    (dget stats key = none →
      ∀ pre a post, CustomConverter.aliasesFor key = pre ++ a :: post →
        (∀ b ∈ pre, dget stats b = none) →
        ∀ v, dget stats a = some v →
        CustomConverter.get_stat_value stats key d = (v, [])) ∧
    (dget stats key = none →
      (∀ a ∈ CustomConverter.aliasesFor key, dget stats a = none) →
      CustomConverter.get_stat_value stats key d =
        (d, [Warning.missingStat key d])) ∧
    CustomConverter.get_stat_value [] "total_cycles" 7 =
      (7, [Warning.missingStat "total_cycles" 7]) := by
  refine ⟨?_, ?_, ?_, by decide⟩
  · intro v hv
    simp [CustomConverter.get_stat_value, hv]
  · intro hmiss pre a post hsplit hpre v hv
    have : CustomConverter.firstAliasHit stats (CustomConverter.aliasesFor key) = some v := by
      rw [hsplit, firstAliasHit_append_miss stats pre _ hpre]
      simp [CustomConverter.firstAliasHit, hv]
    simp [CustomConverter.get_stat_value, hmiss, this]
  · intro hmiss hall
    have : CustomConverter.firstAliasHit stats (CustomConverter.aliasesFor key) = none :=
      firstAliasHit_all_miss stats _ hall
    simp [CustomConverter.get_stat_value, hmiss, this]

/-- Witness for C2: a direct hit, an alias hit behind one missing alias,
and the warned default, all at concrete inputs. -/
theorem c2_resolver_fallback_order_witness :
    CustomConverter.get_stat_value [("total_cycles", (9 : ℚ))] "total_cycles" 7 = (9, []) ∧
    CustomConverter.get_stat_value [("system.cpu_clk_domain.num_cycles", (4 : ℚ))]
      "total_cycles" 7 = (4, []) ∧
    CustomConverter.get_stat_value [] "total_cycles" 7 =
      (7, [Warning.missingStat "total_cycles" 7]) := by
  refine ⟨?_, ?_, ?_⟩
  · exact (c2_resolver_fallback_order [("total_cycles", (9 : ℚ))] "total_cycles" 7).1
      9 (by decide)
  · exact (c2_resolver_fallback_order [("system.cpu_clk_domain.num_cycles", (4 : ℚ))]
      "total_cycles" 7).2.1 (by decide) ["system.cpu.numCycles"]
      "system.cpu_clk_domain.num_cycles" [] (by decide) (by decide) 4 (by decide)
  · exact (c2_resolver_fallback_order [] "total_cycles" 7).2.2.1 (by decide)
      (by decide)

theorem custom_parse_stats_values_parsed (st : CustomConverter.StatTable)
    (hst : ∀ k v, dget st k = some v → ∃ s, pyFloat s = some v)
    (lines : List String) :
    ∀ k v, dget (lines.foldl CustomConverter.statStep st) k = some v →
      ∃ s, pyFloat s = some v := by
  induction lines generalizing st with
  | nil => exact hst
  | cons line rest ih =>
    refine ih (CustomConverter.statStep st line) ?_
    intro k v hv
    rw [CustomConverter.statStep] at hv
    by_cases hskip : isBlank line || CustomConverter.containsTenDashes line
    · rw [if_pos hskip] at hv
      exact hst k v hv
    · rw [if_neg hskip] at hv
      cases hm : CustomConverter.matchStatLine line with
      | none => simp only [hm] at hv; exact hst k v hv
      | some kv =>
        simp only [hm] at hv
        cases hf : pyFloat kv.2 with
        | none => simp only [hf] at hv; exact hst k v hv
        | some q =>
          simp only [hf] at hv
          rw [dget_dinsert] at hv
          by_cases hk : k = kv.1
          · rw [if_pos hk] at hv
            exact ⟨kv.2, by rw [hf, hv]⟩
          · rw [if_neg hk] at hv
            exact hst k v hv

/-- **C5 (amended).** In the regex variant (custom_converter.py) every
value stored in the parsed stat table is a successfully parsed float, and
a line that fails the regex or whose value token fails the float
conversion leaves the table unchanged.  In the whitespace-split variant
(backup.py) only lines with fewer than two tokens (and skip-marker lines)
are dropped: a line with two tokens stores the second token as a raw,
unvalidated string, the float conversion being deferred to
`get_stat_value`. -/
theorem c5_amended_stat_values (lines : List String)
    (st : CustomConverter.StatTable) (stB : Backup.StatTable) (line : String) :
    (∀ k v, dget (CustomConverter.parse_stats lines) k = some v →
      ∃ s, pyFloat s = some v) ∧
    (∀ kv, CustomConverter.matchStatLine line = some kv → pyFloat kv.2 = none →
      CustomConverter.statStep st line = st) ∧
    (CustomConverter.matchStatLine line = none →
      CustomConverter.statStep st line = st) ∧
    (¬ (isBlank line || Backup.containsTripleDash line ||
        listStartsWith "End".toList line.toList) = true →
      ∀ k v r, Backup.pySplit line = k :: v :: r →
        Backup.statStep stB line = dinsert stB k v) := by
  refine ⟨?_, ?_, ?_, ?_⟩
  · exact custom_parse_stats_values_parsed [] (by intro k v hv; cases hv) lines
  · intro kv hm hf
    rw [CustomConverter.statStep]
    by_cases hskip : isBlank line || CustomConverter.containsTenDashes line
    · rw [if_pos hskip]
    · rw [if_neg hskip]
      simp only [hm, hf]
  · intro hm
    rw [CustomConverter.statStep]
    by_cases hskip : isBlank line || CustomConverter.containsTenDashes line
    · rw [if_pos hskip]
    · rw [if_neg hskip]
      simp only [hm]
  · intro hskip k v r hsplit
    rw [Backup.statStep, if_neg hskip]
    simp only [hsplit]

/-- **C5 counterexample.** The whitespace-split parser of backup.py does
not drop a line whose value token fails the numeric parse: on the single
line `foo bar` it stores the entry `("foo", "bar")`, whose value is not a
parseable float. -/
theorem c5_counterexample_backup_raw_string :
    Backup.parse_stats ["foo bar"] = [("foo", "bar")] ∧
    pyFloat "bar" = none := by
  constructor
  · decide
  · decide

/-- Witness for C5: concrete instances of each hypothesis-guarded part.
The line `k 1.2.3` matches the regex with value token `1.2.3`, which
fails the float conversion, so the custom parser drops it; the line
`foo bar` splits into two tokens and the backup parser stores the raw
second token. -/
theorem c5_amended_stat_values_witness :
    CustomConverter.statStep [] "k 1.2.3" = [] ∧
    CustomConverter.statStep [] "???" = [] ∧
    Backup.statStep [] "foo bar" = dinsert [] "foo" "bar" := by
  refine ⟨?_, ?_, ?_⟩
  · exact (c5_amended_stat_values [] [] [] "k 1.2.3").2.1 ("k", "1.2.3")
      (by decide) (by decide)
  · exact (c5_amended_stat_values [] [] [] "???").2.2.1 (by decide)
  · exact (c5_amended_stat_values [] [] [] "foo bar").2.2.2 (by decide)
      "foo" "bar" [] (by decide)

/-- **C6.** The config parser contract of custom_converter.py: a
top-level JSON sequence yields its first element; an empty sequence
fails with the descriptive `ValueError`; and a top-level value that is
neither a mapping nor a sequence makes the conversion fail with a
`TypeError` (raised by the entry check of `create_mcpat_xml`). -/
theorem c6_config_parser_contract (j x : Json) (xs : List Json)
    (stats : CustomConverter.StatTable) :
    (CustomConverter.parse_config (Json.arr (x :: xs)) = Except.ok x) ∧
    (CustomConverter.parse_config (Json.arr []) =
      Except.error (PyErr.valueError "config.json is an empty list.")) ∧
    ((∀ ys, j ≠ Json.arr ys) → (∀ fsj, j ≠ Json.obj fsj) →
      CustomConverter.create_mcpat_xml stats j =
        Except.error (PyErr.typeError "config object must be a dictionary.")) := by
  refine ⟨rfl, rfl, ?_⟩
  intro harr hobj
  cases j with
  | arr ys => exact absurd rfl (harr ys)
  | obj fsj => exact absurd rfl (hobj fsj)
  | null => rfl
  | bool b => rfl
  | num q => rfl
  | str s => rfl

/-- Witness for C6: the type-error case at the concrete top-level value
`5`. -/
theorem c6_config_parser_contract_witness :
    CustomConverter.create_mcpat_xml [] (Json.num 5) =
      Except.error (PyErr.typeError "config object must be a dictionary.") :=
  (c6_config_parser_contract (Json.num 5) Json.null [] []).2.2
    (fun ys h => by cases h) (fun fsj h => by cases h)

/-- **C8.** Both drivers exit with status 1 (after printing their usage
line) exactly when `len(sys.argv)` differs from 3 (the script name plus
two positional file arguments); with the right argument count the exit
code is 0 for every conversion outcome, including any error escaping the
pipeline (file not found, malformed JSON, any exception), which is
caught and reported. -/
theorem c8_driver_exit_codes (argvLen : Nat) (conv : Except RunErr String) :
    ((driver_custom argvLen conv).1 = if argvLen = 3 then 0 else 1) ∧
    ((driver_backup argvLen conv).1 = if argvLen = 3 then 0 else 1) ∧
    (argvLen ≠ 3 → (driver_custom argvLen conv).2 =
      ["Usage: python mcpat_converter.py <stats.txt> <config.json>"]) ∧
    (argvLen = 3 → ∀ e, conv = Except.error e →
      (driver_custom argvLen conv).1 = 0 ∧ (driver_backup argvLen conv).1 = 0) := by
  by_cases h : argvLen = 3
  · refine ⟨?_, ?_, fun hne => absurd h hne, ?_⟩
    · cases conv with
      | ok s => simp [driver_custom, h]
      | error e => simp [driver_custom, h]
    · cases conv with
      | ok s => simp [driver_backup, h]
      | error e => cases e <;> simp [driver_backup, h]
    · intro _ e he
      subst he
      cases e <;> simp [driver_custom, driver_backup, h]
  · refine ⟨?_, ?_, fun _ => ?_, fun h3 => absurd h3 h⟩
    · simp [driver_custom, h]
    · simp [driver_backup, h]
    · simp [driver_custom, h]

/-- Witness for C8: one positional argument exits 1 with the usage line;
with two positional arguments a file-not-found outcome still exits 0. -/
theorem c8_driver_exit_codes_witness :
    (driver_custom 2 (Except.error RunErr.fileNotFound)).1 = 1 ∧
    (driver_custom 2 (Except.error RunErr.fileNotFound)).2 =
      ["Usage: python mcpat_converter.py <stats.txt> <config.json>"] ∧
    (driver_custom 3 (Except.error RunErr.fileNotFound)).1 = 0 ∧
    (driver_backup 3 (Except.error RunErr.fileNotFound)).1 = 0 := by
  refine ⟨?_, ?_, ?_, ?_⟩
  · have h := (c8_driver_exit_codes 2 (Except.error RunErr.fileNotFound)).1
    simpa using h
  · exact (c8_driver_exit_codes 2 (Except.error RunErr.fileNotFound)).2.2.1 (by decide)
  · exact ((c8_driver_exit_codes 3 (Except.error RunErr.fileNotFound)).2.2.2 rfl
      RunErr.fileNotFound rfl).1
  · exact ((c8_driver_exit_codes 3 (Except.error RunErr.fileNotFound)).2.2.2 rfl
      RunErr.fileNotFound rfl).2

/-! ## Transport lemmas for the backup populate sections -/

theorem getF_setF_ne_node {k : FieldKey} {n : NodeId} (hk : ¬ k.1 = n)
    (fs : Fields) (a : String) (v : String) :
    getF (setF fs (n, a) v) k = getF fs k := by
  rw [getF_setF, if_neg]
  intro h
  exact hk (by rw [h])

theorem backup_systemSection_keysF (stats : Backup.StatTable) (fs : Fields) :
    keysF (Backup.systemSection stats fs).1 = keysF fs := by
  simp only [Backup.systemSection, keysF_setF]

theorem backup_systemSection_getF_ne (stats : Backup.StatTable) (fs : Fields)
    {k : FieldKey} (hk : ¬ k.1 = NodeId.system) :
    getF (Backup.systemSection stats fs).1 k = getF fs k := by
  simp only [Backup.systemSection, getF_setF_ne_node hk]

theorem backup_coreSection_keysF (stats : Backup.StatTable) (mhz : ℚ) (fs : Fields) :
    keysF (Backup.coreSection stats mhz fs) = keysF fs := by
  simp only [Backup.coreSection, keysF_setF]

theorem backup_coreSection_getF_ne (stats : Backup.StatTable) (mhz : ℚ) (fs : Fields)
    {k : FieldKey} (hk : ¬ k.1 = NodeId.coreB) :
    getF (Backup.coreSection stats mhz fs) k = getF fs k := by
  simp only [Backup.coreSection, getF_setF_ne_node hk]

theorem backup_l1Section_ok_keysF {stats : Backup.StatTable} {config clsJ : Json}
    {listKey : String} {node : NodeId} {warn : Warning} {fs : Fields}
    {r : Fields × List Warning}
    (h : Backup.l1Section stats config clsJ listKey node warn fs = Except.ok r) :
    keysF r.1 = keysF fs := by
  rw [Backup.l1Section] at h
  by_cases hn : hasNode fs node = true
  · rw [if_pos hn] at h
    cases hl : Backup.l1Lookup config listKey with
    | error e => rw [hl] at h; cases h
    | ok o =>
      cases o with
      | none => simp only [hl] at h; cases h; rfl
      | some sa =>
        simp only [hl] at h
        cases hi : pyIntOfJson sa.1 with
        | error e => rw [hi] at h; cases h
        | ok n =>
          simp only [hi] at h
          cases h
          simp only [keysF_setF]
  · rw [if_neg hn] at h
    cases h
    rfl

theorem backup_l1Section_ok_getF_ne {stats : Backup.StatTable} {config clsJ : Json}
    {listKey : String} {node : NodeId} {warn : Warning} {fs : Fields}
    {r : Fields × List Warning}
    (h : Backup.l1Section stats config clsJ listKey node warn fs = Except.ok r)
    {k : FieldKey} (hk : ¬ k.1 = node) : getF r.1 k = getF fs k := by
  rw [Backup.l1Section] at h
  by_cases hn : hasNode fs node = true
  · rw [if_pos hn] at h
    cases hl : Backup.l1Lookup config listKey with
    | error e => rw [hl] at h; cases h
    | ok o =>
      cases o with
      | none => simp only [hl] at h; cases h; rfl
      | some sa =>
        simp only [hl] at h
        cases hi : pyIntOfJson sa.1 with
        | error e => rw [hi] at h; cases h
        | ok n =>
          simp only [hi] at h
          cases h
          simp only [getF_setF_ne_node hk]
  · rw [if_neg hn] at h
    cases h
    rfl

theorem backup_l1Section_ok_warnings {stats : Backup.StatTable} {config clsJ : Json}
    {listKey : String} {node : NodeId} {warn : Warning} {fs : Fields}
    {r : Fields × List Warning}
    (h : Backup.l1Section stats config clsJ listKey node warn fs = Except.ok r) :
    r.2 = [] ∨ r.2 = [warn] := by
  rw [Backup.l1Section] at h
  by_cases hn : hasNode fs node = true
  · rw [if_pos hn] at h
    cases hl : Backup.l1Lookup config listKey with
    | error e => rw [hl] at h; cases h
    | ok o =>
      cases o with
      | none => simp only [hl] at h; cases h; exact Or.inr rfl
      | some sa =>
        simp only [hl] at h
        cases hi : pyIntOfJson sa.1 with
        | error e => rw [hi] at h; cases h
        | ok n => simp only [hi] at h; cases h; exact Or.inl rfl
  · rw [if_neg hn] at h
    cases h
    exact Or.inl rfl

theorem backup_l1Section_miss {stats : Backup.StatTable} {config clsJ : Json}
    {listKey : String} {node : NodeId} {warn : Warning} {fs : Fields}
    (hn : hasNode fs node = true)
    (hl : Backup.l1Lookup config listKey = Except.ok none) :
    Backup.l1Section stats config clsJ listKey node warn fs =
      Except.ok (fs, [warn]) := by
  rw [Backup.l1Section, if_pos hn, hl]

theorem backup_l1Section_success {stats : Backup.StatTable} {config clsJ : Json}
    {listKey : String} {node : NodeId} {warn : Warning} {fs : Fields}
    {sizeJ assocJ : Json} {n : ℤ}
    (hn : hasNode fs node = true)
    (hl : Backup.l1Lookup config listKey = Except.ok (some (sizeJ, assocJ)))
    (hi : pyIntOfJson sizeJ = Except.ok n)
    (hcs : (getF fs (node, "cache_size")).isSome = true)
    (has : (getF fs (node, "associativity")).isSome = true) :
    ∃ r, Backup.l1Section stats config clsJ listKey node warn fs = Except.ok r ∧
      getF r.1 (node, "cache_size") = some (floatStr ((n : ℚ) / 1024)) ∧
      getF r.1 (node, "associativity") = some (jsonPyStr assocJ) ∧
      r.2 = [] := by
  rw [Backup.l1Section, if_pos hn]
  simp only [hl, hi]
  refine ⟨_, rfl, ?_, ?_, rfl⟩
  · rw [getF_setF, if_neg (by simp), getF_setF, if_neg (by simp),
      getF_setF, if_neg (by simp), getF_setF, if_neg (by simp),
      getF_setF, if_neg (by simp)]
    exact getF_setF_self_of_isSome hcs _
  · rw [getF_setF, if_neg (by simp), getF_setF, if_neg (by simp),
      getF_setF, if_neg (by simp)]
    have h2 : (getF (setF (setF fs (node, "cache_size") (floatStr ((n : ℚ) / 1024)))
        (node, "line_size") (jsonPyStr clsJ)) (node, "associativity")).isSome = true := by
      rw [getF_setF, if_neg (by simp), getF_setF, if_neg (by simp)]
      exact has
    exact getF_setF_self_of_isSome h2 _

theorem backup_l2Section_ok_keysF {stats : Backup.StatTable} {config clsJ : Json}
    {fs : Fields} {r : Fields × List Warning}
    (h : Backup.l2Section stats config clsJ fs = Except.ok r) :
    keysF r.1 = keysF fs := by
  rw [Backup.l2Section] at h
  by_cases hn : hasNode fs NodeId.l2Cache = true
  · rw [if_pos hn] at h
    cases hl : Backup.l2Lookup config with
    | error e => rw [hl] at h; cases h
    | ok o =>
      cases o with
      | none => simp only [hl] at h; cases h; rfl
      | some sa =>
        simp only [hl] at h
        cases hi : pyIntOfJson sa.1 with
        | error e => rw [hi] at h; cases h
        | ok n => simp only [hi] at h; cases h; simp only [keysF_setF]
  · rw [if_neg hn] at h
    cases h
    rfl

theorem backup_l2Section_ok_getF_ne {stats : Backup.StatTable} {config clsJ : Json}
    {fs : Fields} {r : Fields × List Warning}
    (h : Backup.l2Section stats config clsJ fs = Except.ok r)
    {k : FieldKey} (hk : ¬ k.1 = NodeId.l2Cache) : getF r.1 k = getF fs k := by
  rw [Backup.l2Section] at h
  by_cases hn : hasNode fs NodeId.l2Cache = true
  · rw [if_pos hn] at h
    cases hl : Backup.l2Lookup config with
    | error e => rw [hl] at h; cases h
    | ok o =>
      cases o with
      | none => simp only [hl] at h; cases h; rfl
      | some sa =>
        simp only [hl] at h
        cases hi : pyIntOfJson sa.1 with
        | error e => rw [hi] at h; cases h
        | ok n => simp only [hi] at h; cases h; simp only [getF_setF_ne_node hk]
  · rw [if_neg hn] at h
    cases h
    rfl

theorem backup_l2Section_ok_warnings {stats : Backup.StatTable} {config clsJ : Json}
    {fs : Fields} {r : Fields × List Warning}
    (h : Backup.l2Section stats config clsJ fs = Except.ok r) :
    r.2 = [] ∨ r.2 = [Warning.l2ConfigMissing] := by
  rw [Backup.l2Section] at h
  by_cases hn : hasNode fs NodeId.l2Cache = true
  · rw [if_pos hn] at h
    cases hl : Backup.l2Lookup config with
    | error e => rw [hl] at h; cases h
    | ok o =>
      cases o with
      | none => simp only [hl] at h; cases h; exact Or.inr rfl
      | some sa =>
        simp only [hl] at h
        cases hi : pyIntOfJson sa.1 with
        | error e => rw [hi] at h; cases h
        | ok n => simp only [hi] at h; cases h; exact Or.inl rfl
  · rw [if_neg hn] at h
    cases h
    exact Or.inl rfl

theorem backup_l2Section_miss {stats : Backup.StatTable} {config clsJ : Json}
    {fs : Fields} (hn : hasNode fs NodeId.l2Cache = true)
    (hl : Backup.l2Lookup config = Except.ok none) :
    Backup.l2Section stats config clsJ fs =
      Except.ok (fs, [Warning.l2ConfigMissing]) := by
  rw [Backup.l2Section, if_pos hn, hl]

theorem backup_memSection_keysF (stats : Backup.StatTable) (fs : Fields) :
    keysF (Backup.memSection stats fs) = keysF fs := by
  rw [Backup.memSection]
  by_cases hn : hasNode fs NodeId.mainMemory = true
  · rw [if_pos hn, keysF_setF]
  · rw [if_neg hn]

theorem backup_memSection_getF_ne (stats : Backup.StatTable) (fs : Fields)
    {k : FieldKey} (hk : ¬ k.1 = NodeId.mainMemory) :
    getF (Backup.memSection stats fs) k = getF fs k := by
  rw [Backup.memSection]
  by_cases hn : hasNode fs NodeId.mainMemory = true
  · rw [if_pos hn, getF_setF_ne_node hk]
  · rw [if_neg hn]

theorem backup_memSection_ext (stats : Backup.StatTable) (fs : Fields)
    (hn : hasNode fs NodeId.mainMemory = true)
    (hsome : (getF fs (NodeId.mainMemory, "ext_dram_accesses")).isSome = true) :
    getF (Backup.memSection stats fs) (NodeId.mainMemory, "ext_dram_accesses") =
      some (intStr
        (Backup.get_stat_value stats "board.memory.mem_ctrl.dram.numReads::total" 0 +
         Backup.get_stat_value stats "board.cache_hierarchy.l1dcaches.writebacks::total" 0)) := by
  rw [Backup.memSection, if_pos hn]
  exact getF_setF_self_of_isSome hsome _

theorem backup_create_decomp {stats : Backup.StatTable} {cfg b cls : Json}
    {f1 f2 f3 : Fields} {w1 w2 w3 : List Warning}
    (hb : dictGet cfg "board" (Json.obj []) = Except.ok b)
    (hcls : dictGet b "cache_line_size" (Json.num 64) = Except.ok cls)
    (h1 : Backup.l1Section stats cfg cls "l1icaches" NodeId.l1iCache
      Warning.l1iConfigMissing
      (Backup.coreSection stats (Backup.systemSection stats Backup.template).2
        (Backup.systemSection stats Backup.template).1) = Except.ok (f1, w1))
    (h2 : Backup.l1Section stats cfg cls "l1dcaches" NodeId.l1dCache
      Warning.l1dConfigMissing f1 = Except.ok (f2, w2))
    (h3 : Backup.l2Section stats cfg cls f2 = Except.ok (f3, w3)) :
    Backup.create_mcpat_xml stats cfg =
      Except.ok (Backup.memSection stats f3, w1 ++ w2 ++ w3) := by
  rw [Backup.create_mcpat_xml]
  simp only [hb, hcls, h1, h2, h3]

theorem backup_create_ok_inv {stats : Backup.StatTable} {cfg : Json}
    {out : Fields} {ws : List Warning}
    (h : Backup.create_mcpat_xml stats cfg = Except.ok (out, ws)) :
    ∃ b cls f1 w1 f2 w2 f3 w3,
      dictGet cfg "board" (Json.obj []) = Except.ok b ∧
      dictGet b "cache_line_size" (Json.num 64) = Except.ok cls ∧
      Backup.l1Section stats cfg cls "l1icaches" NodeId.l1iCache
        Warning.l1iConfigMissing
        (Backup.coreSection stats (Backup.systemSection stats Backup.template).2
          (Backup.systemSection stats Backup.template).1) = Except.ok (f1, w1) ∧
      Backup.l1Section stats cfg cls "l1dcaches" NodeId.l1dCache
        Warning.l1dConfigMissing f1 = Except.ok (f2, w2) ∧
      Backup.l2Section stats cfg cls f2 = Except.ok (f3, w3) ∧
      out = Backup.memSection stats f3 ∧ ws = w1 ++ w2 ++ w3 := by
  rw [Backup.create_mcpat_xml] at h
  cases hb : dictGet cfg "board" (Json.obj []) with
  | error e => rw [hb] at h; cases h
  | ok b =>
    simp only [hb] at h
    cases hcls : dictGet b "cache_line_size" (Json.num 64) with
    | error e => rw [hcls] at h; cases h
    | ok cls =>
      simp only [hcls] at h
      cases h1 : Backup.l1Section stats cfg cls "l1icaches" NodeId.l1iCache
          Warning.l1iConfigMissing
          (Backup.coreSection stats (Backup.systemSection stats Backup.template).2
            (Backup.systemSection stats Backup.template).1) with
      | error e => rw [h1] at h; cases h
      | ok r1 =>
        obtain ⟨f1, w1⟩ := r1
        simp only [h1] at h
        cases h2 : Backup.l1Section stats cfg cls "l1dcaches" NodeId.l1dCache
            Warning.l1dConfigMissing f1 with
        | error e => rw [h2] at h; cases h
        | ok r2 =>
          obtain ⟨f2, w2⟩ := r2
          simp only [h2] at h
          cases h3 : Backup.l2Section stats cfg cls f2 with
          | error e => rw [h3] at h; cases h
          | ok r3 =>
            obtain ⟨f3, w3⟩ := r3
            simp only [h3, Except.ok.injEq, Prod.mk.injEq] at h
            exact ⟨b, cls, f1, w1, f2, w2, f3, w3, rfl, hcls, h1, h2, h3,
              h.1.symm, h.2.symm⟩

/-- **C4.** On the config
`{"board": {"cache_line_size": 64, "cache_hierarchy": {"l1dcaches": [{"size": 32768, "assoc": 8}]}}}`
and any stats input, the backup-variant conversion succeeds and the
populated L1D `cache_size` field is `str(int(32768)/1024) = "32.0"` (the
byte count divided by 1024) while the `associativity` field is `"8"`. -/
theorem c4_l1d_geometry (stats : Backup.StatTable) :
    isOkRun (Backup.create_mcpat_xml stats cfgC4) = true ∧
    getF (okFields (Backup.create_mcpat_xml stats cfgC4))
      (NodeId.l1dCache, "cache_size") = some "32.0" ∧
    getF (okFields (Backup.create_mcpat_xml stats cfgC4))
      (NodeId.l1dCache, "associativity") = some "8" := by
  have hkeys1 : keysF (Backup.coreSection stats
      (Backup.systemSection stats Backup.template).2
      (Backup.systemSection stats Backup.template).1) = keysF Backup.template := by
    rw [backup_coreSection_keysF, backup_systemSection_keysF]
  have h1 := @backup_l1Section_miss stats cfgC4 (Json.num 64) "l1icaches"
    NodeId.l1iCache Warning.l1iConfigMissing _
    (by rw [hasNode_congr hkeys1]; decide) (by rfl)
  obtain ⟨r2, h2, hcs2, has2, hw2⟩ := @backup_l1Section_success stats cfgC4
    (Json.num 64) "l1dcaches" NodeId.l1dCache Warning.l1dConfigMissing _
    (Json.num 32768) (Json.num 8) 32768
    (by rw [hasNode_congr hkeys1]; decide) (by rfl) (by rfl)
    (by rw [getF_isSome_congr hkeys1]; decide)
    (by rw [getF_isSome_congr hkeys1]; decide)
  obtain ⟨f2, w2⟩ := r2
  have hw2f : w2 = [] := hw2
  subst hw2f
  have hb : dictGet cfgC4 "board" (Json.obj []) = Except.ok cfgC4board := rfl
  have hcls : dictGet cfgC4board "cache_line_size" (Json.num 64) =
      Except.ok (Json.num 64) := rfl
  have hkeys2 : keysF f2 = keysF Backup.template := by
    have hk : keysF f2 = keysF (Backup.coreSection stats
        (Backup.systemSection stats Backup.template).2
        (Backup.systemSection stats Backup.template).1) :=
      backup_l1Section_ok_keysF h2
    rw [hk, hkeys1]
  have h3 := @backup_l2Section_miss stats cfgC4 (Json.num 64) f2
    (by rw [hasNode_congr hkeys2]; decide) (by rfl)
  have hcreate := backup_create_decomp hb hcls h1 h2 h3
  rw [hcreate]
  have hcs2f : getF f2 (NodeId.l1dCache, "cache_size") =
      some (floatStr (((32768 : ℤ) : ℚ) / 1024)) := hcs2
  have has2f : getF f2 (NodeId.l1dCache, "associativity") =
      some (jsonPyStr (Json.num 8)) := has2
  refine ⟨rfl, ?_, ?_⟩
  · have hval : ((32768 : ℤ) : ℚ) / 1024 = 32 := by norm_num
    show getF (Backup.memSection stats f2) (NodeId.l1dCache, "cache_size") = some "32.0"
    rw [backup_memSection_getF_ne stats f2 (by decide), hcs2f, hval]
    rw [show floatStr (32 : ℚ) = "32.0" from by decide]
  · show getF (Backup.memSection stats f2) (NodeId.l1dCache, "associativity") = some "8"
    rw [backup_memSection_getF_ne stats f2 (by decide), has2f]
    rw [show jsonPyStr (Json.num 8) = "8" from by decide]

/-- **C9.** For every pair of inputs on which the backup-variant
conversion completes, the external DRAM access field equals
`str(int(dram_reads + l1d_writebacks))`: the sum of the resolved total
DRAM read count and the resolved L1D writeback count (int-formatted like
every other stat field). -/
theorem c9_ext_dram_sum (stats : Backup.StatTable) (cfg : Json)
    (out : Fields) (ws : List Warning)
    (h : Backup.create_mcpat_xml stats cfg = Except.ok (out, ws)) :
    getF out (NodeId.mainMemory, "ext_dram_accesses") =
      some (intStr
        (Backup.get_stat_value stats "board.memory.mem_ctrl.dram.numReads::total" 0 +
         Backup.get_stat_value stats "board.cache_hierarchy.l1dcaches.writebacks::total" 0)) := by
  obtain ⟨b, cls, f1, w1, f2, w2, f3, w3, hb, hcls, h1, h2, h3, hout, hws⟩ :=
    backup_create_ok_inv h
  subst hout
  have hkeys3 : keysF f3 = keysF Backup.template := by
    have hk3 : keysF f3 = keysF f2 := backup_l2Section_ok_keysF h3
    have hk2 : keysF f2 = keysF f1 := backup_l1Section_ok_keysF h2
    have hk1 : keysF f1 = keysF (Backup.coreSection stats
        (Backup.systemSection stats Backup.template).2
        (Backup.systemSection stats Backup.template).1) :=
      backup_l1Section_ok_keysF h1
    rw [hk3, hk2, hk1, backup_coreSection_keysF, backup_systemSection_keysF]
  exact backup_memSection_ext stats f3
    (by rw [hasNode_congr hkeys3]; decide)
    (by rw [getF_isSome_congr hkeys3]; decide)

/-- Witness for C9: with dram reads 100 and L1D writebacks 20 in the
stats (and the empty config), the field is `"120"`. -/
theorem c9_ext_dram_sum_witness :
    getF (okFields (Backup.create_mcpat_xml statsDram cfgEmpty))
      (NodeId.mainMemory, "ext_dram_accesses") = some "120" := by
  have hkeys1 : keysF (Backup.coreSection statsDram
      (Backup.systemSection statsDram Backup.template).2
      (Backup.systemSection statsDram Backup.template).1) = keysF Backup.template := by
    rw [backup_coreSection_keysF, backup_systemSection_keysF]
  have h1 := @backup_l1Section_miss statsDram cfgEmpty (Json.num 64) "l1icaches"
    NodeId.l1iCache Warning.l1iConfigMissing _
    (by rw [hasNode_congr hkeys1]; decide) (by rfl)
  have h2 := @backup_l1Section_miss statsDram cfgEmpty (Json.num 64) "l1dcaches"
    NodeId.l1dCache Warning.l1dConfigMissing _
    (by rw [hasNode_congr hkeys1]; decide) (by rfl)
  have h3 := @backup_l2Section_miss statsDram cfgEmpty (Json.num 64) _
    (by rw [hasNode_congr hkeys1]; decide) (by rfl)
  have hcreate := backup_create_decomp (by rfl) (by rfl) h1 h2 h3
  have happ := c9_ext_dram_sum statsDram cfgEmpty _ _ hcreate
  have hsum : Backup.get_stat_value statsDram
        "board.memory.mem_ctrl.dram.numReads::total" 0 +
      Backup.get_stat_value statsDram
        "board.cache_hierarchy.l1dcaches.writebacks::total" 0 = 120 := by
    have hd : Backup.get_stat_value statsDram
        "board.memory.mem_ctrl.dram.numReads::total" 0 = 100 := by
      show (1 : ℚ) * (((100 : ℕ) : ℚ) + ((0 : ℕ) : ℚ) / (10 : ℚ) ^ (0 : ℕ)) = 100
      norm_num
    have hw : Backup.get_stat_value statsDram
        "board.cache_hierarchy.l1dcaches.writebacks::total" 0 = 20 := by
      show (1 : ℚ) * (((20 : ℕ) : ℚ) + ((0 : ℕ) : ℚ) / (10 : ℚ) ^ (0 : ℕ)) = 20
      norm_num
    rw [hd, hw]
    norm_num
  rw [hcreate]
  show getF (Backup.memSection statsDram
    (Backup.coreSection statsDram
      (Backup.systemSection statsDram Backup.template).2
      (Backup.systemSection statsDram Backup.template).1))
    (NodeId.mainMemory, "ext_dram_accesses") = some "120"
  refine Eq.trans happ ?_
  rw [hsum]
  rw [show intStr (120 : ℚ) = "120" from by decide]

/-- **C7.** When the L1I cache-configuration path is missing from the
config (the lookup raises `KeyError`/`IndexError`, modelled by
`l1Lookup` returning `ok none`), the handling section returns normally
with the field state unchanged and exactly one warning; consequently in
any completed run with such a config the L1I geometry fields stay at
their template default `0` and the printed warnings contain the L1I
config warning exactly once. -/
theorem c7_missing_config_path (stats : Backup.StatTable) (cfg clsJ : Json)
    (fs out : Fields) (ws : List Warning)
    (hlook : Backup.l1Lookup cfg "l1icaches" = Except.ok none)
    (hnode : hasNode fs NodeId.l1iCache = true)
    (hrun : Backup.create_mcpat_xml stats cfg = Except.ok (out, ws)) :
    (Backup.l1Section stats cfg clsJ "l1icaches" NodeId.l1iCache
        Warning.l1iConfigMissing fs = Except.ok (fs, [Warning.l1iConfigMissing])) ∧
    getF out (NodeId.l1iCache, "cache_size") = some "0" ∧
    getF out (NodeId.l1iCache, "associativity") = some "0" ∧
    getF out (NodeId.l1iCache, "total_reads") = some "0" ∧
    ws.count Warning.l1iConfigMissing = 1 := by
  obtain ⟨b, cls, f1, w1, f2, w2, f3, w3, hb, hcls, h1, h2, h3, hout, hws⟩ :=
    backup_create_ok_inv hrun
  subst hout
  subst hws
  have hkeysPre : keysF (Backup.coreSection stats
      (Backup.systemSection stats Backup.template).2
      (Backup.systemSection stats Backup.template).1) = keysF Backup.template := by
    rw [backup_coreSection_keysF, backup_systemSection_keysF]
  have hmiss := @backup_l1Section_miss stats cfg cls "l1icaches" NodeId.l1iCache
    Warning.l1iConfigMissing _ (by rw [hasNode_congr hkeysPre]; decide) hlook
  rw [hmiss] at h1
  simp only [Except.ok.injEq, Prod.mk.injEq] at h1
  obtain ⟨hf1, hw1⟩ := h1
  subst hf1
  subst hw1
  have hstep : ∀ a : String, getF f3 (NodeId.l1iCache, a) =
      getF Backup.template (NodeId.l1iCache, a) := by
    intro a
    rw [backup_l2Section_ok_getF_ne h3 (by simp),
      backup_l1Section_ok_getF_ne h2 (by simp),
      backup_coreSection_getF_ne stats
        (Backup.systemSection stats Backup.template).2
        (Backup.systemSection stats Backup.template).1 (by simp),
      backup_systemSection_getF_ne stats Backup.template (by simp)]
  refine ⟨backup_l1Section_miss hnode hlook, ?_, ?_, ?_, ?_⟩
  · rw [backup_memSection_getF_ne stats f3 (by decide), hstep]
    decide
  · rw [backup_memSection_getF_ne stats f3 (by decide), hstep]
    decide
  · rw [backup_memSection_getF_ne stats f3 (by decide), hstep]
    decide
  · rcases backup_l1Section_ok_warnings h2 with hw2 | hw2 <;>
      rcases backup_l2Section_ok_warnings h3 with hw3 | hw3 <;>
      subst hw2 <;> subst hw3 <;> decide

/-- Witness for C7: the empty config `{}` has no
`board.cache_hierarchy.l1icaches` path; the run completes, the L1I
`cache_size` field stays `"0"` and the L1I warning appears exactly once. -/
theorem c7_missing_config_path_witness :
    getF (okFields (Backup.create_mcpat_xml [] cfgEmpty))
      (NodeId.l1iCache, "cache_size") = some "0" ∧
    (okWarns (Backup.create_mcpat_xml [] cfgEmpty)).count
      Warning.l1iConfigMissing = 1 := by
  have hkeys1 : keysF (Backup.coreSection []
      (Backup.systemSection [] Backup.template).2
      (Backup.systemSection [] Backup.template).1) = keysF Backup.template := by
    rw [backup_coreSection_keysF, backup_systemSection_keysF]
  have h1 := @backup_l1Section_miss [] cfgEmpty (Json.num 64) "l1icaches"
    NodeId.l1iCache Warning.l1iConfigMissing _
    (by rw [hasNode_congr hkeys1]; decide) (by rfl)
  have h2 := @backup_l1Section_miss [] cfgEmpty (Json.num 64) "l1dcaches"
    NodeId.l1dCache Warning.l1dConfigMissing _
    (by rw [hasNode_congr hkeys1]; decide) (by rfl)
  have h3 := @backup_l2Section_miss [] cfgEmpty (Json.num 64) _
    (by rw [hasNode_congr hkeys1]; decide) (by rfl)
  have hcreate := backup_create_decomp (by rfl) (by rfl) h1 h2 h3
  have happ := c7_missing_config_path [] cfgEmpty (Json.num 64) Backup.template _ _
    (by rfl) (by decide) hcreate
  refine ⟨?_, ?_⟩
  · rw [hcreate]
    exact happ.2.1
  · rw [hcreate]
    exact happ.2.2.2.2

/-! ## Transport lemmas for the custom populate blocks -/

theorem custom_template_no_core {i : Nat} (hi : ¬ i = 0) :
    hasNode CustomConverter.template (NodeId.core i) = false := by
  have h0 : ¬ (0 = i) := fun h => hi h.symm
  simp [hasNode, keysF, CustomConverter.template, h0]

theorem custom_template_core_none {i : Nat} (hi : ¬ i = 0) (a : String) :
    getF CustomConverter.template (NodeId.core i, a) = none := by
  have h0 : ¬ (0 = i) := fun h => hi h.symm
  simp [getF, CustomConverter.template, Prod.ext_iff, h0]

theorem custom_systemSection_keysF (stats : CustomConverter.StatTable)
    (n : Nat) (fs : Fields) :
    keysF (CustomConverter.systemSection stats n fs).1.1 = keysF fs := by
  simp only [CustomConverter.systemSection, keysF_setF]

theorem custom_systemSection_getF_ne (stats : CustomConverter.StatTable)
    (n : Nat) (fs : Fields) {k : FieldKey} (hk : ¬ k.1 = NodeId.system) :
    getF (CustomConverter.systemSection stats n fs).1.1 k = getF fs k := by
  simp only [CustomConverter.systemSection, getF_setF_ne_node hk]

theorem custom_systemSection_parts (stats : CustomConverter.StatTable)
    (n : Nat) (fs : Fields) :
    (CustomConverter.systemSection stats n fs).2.1 =
      (CustomConverter.get_stat_value stats "total_cycles" 0).1 ∧
    (CustomConverter.systemSection stats n fs).2.2 =
      (CustomConverter.get_stat_value stats "system.clk_domain.clock" 1000000000).1
        / 1000000 := ⟨rfl, rfl⟩

theorem custom_systemSection_fields (stats : CustomConverter.StatTable)
    (n : Nat) (fs : Fields)
    (hnc : (getF fs (NodeId.system, "number_of_cores")).isSome = true)
    (htc : (getF fs (NodeId.system, "total_cycles")).isSome = true)
    (hbc : (getF fs (NodeId.system, "busy_cycles")).isSome = true)
    (hcr : (getF fs (NodeId.system, "target_core_clockrate")).isSome = true) :
    getF (CustomConverter.systemSection stats n fs).1.1
        (NodeId.system, "number_of_cores") = some (toString n) ∧
    getF (CustomConverter.systemSection stats n fs).1.1
        (NodeId.system, "total_cycles") =
      some (intStr (CustomConverter.get_stat_value stats "total_cycles" 0).1) ∧
    getF (CustomConverter.systemSection stats n fs).1.1
        (NodeId.system, "busy_cycles") =
      some (intStr (CustomConverter.get_stat_value stats "total_cycles" 0).1) ∧
    getF (CustomConverter.systemSection stats n fs).1.1
        (NodeId.system, "target_core_clockrate") =
      some (floatStr ((CustomConverter.get_stat_value stats
        "system.clk_domain.clock" 1000000000).1 / 1000000)) ∧
    getF (CustomConverter.systemSection stats n fs).1.1
        (NodeId.system, "idle_cycles") = getF fs (NodeId.system, "idle_cycles") ∧
    getF (CustomConverter.systemSection stats n fs).1.1
        (NodeId.system, "number_of_L2s") = getF fs (NodeId.system, "number_of_L2s") := by
  simp only [CustomConverter.systemSection]
  refine ⟨?_, ?_, ?_, ?_, ?_, ?_⟩
  · rw [getF_setF, if_neg (by simp), getF_setF, if_neg (by simp),
      getF_setF, if_neg (by simp)]
    exact getF_setF_self_of_isSome hnc _
  · rw [getF_setF, if_neg (by simp), getF_setF, if_neg (by simp)]
    have h2 : (getF (setF fs (NodeId.system, "number_of_cores") (toString n))
        (NodeId.system, "total_cycles")).isSome = true := by
      rw [getF_setF, if_neg (by simp)]; exact htc
    exact getF_setF_self_of_isSome h2 _
  · rw [getF_setF, if_neg (by simp)]
    have h2 : (getF (setF (setF fs (NodeId.system, "number_of_cores") (toString n))
        (NodeId.system, "total_cycles")
        (intStr (CustomConverter.get_stat_value stats "total_cycles" 0).1))
        (NodeId.system, "busy_cycles")).isSome = true := by
      rw [getF_setF, if_neg (by simp), getF_setF, if_neg (by simp)]; exact hbc
    exact getF_setF_self_of_isSome h2 _
  · have h2 : (getF (setF (setF (setF fs
        (NodeId.system, "number_of_cores") (toString n))
        (NodeId.system, "total_cycles")
        (intStr (CustomConverter.get_stat_value stats "total_cycles" 0).1))
        (NodeId.system, "busy_cycles")
        (intStr (CustomConverter.get_stat_value stats "total_cycles" 0).1))
        (NodeId.system, "target_core_clockrate")).isSome = true := by
      rw [getF_setF, if_neg (by simp), getF_setF, if_neg (by simp),
        getF_setF, if_neg (by simp)]
      exact hcr
    exact getF_setF_self_of_isSome h2 _
  · rw [getF_setF, if_neg (by simp), getF_setF, if_neg (by simp),
      getF_setF, if_neg (by simp), getF_setF, if_neg (by simp)]
  · rw [getF_setF, if_neg (by simp), getF_setF, if_neg (by simp),
      getF_setF, if_neg (by simp), getF_setF, if_neg (by simp)]

theorem custom_cacheGeom_ok_keysF {config clsJ : Json} {listKey : String}
    {i : Nat} {node : NodeId} {attr flag : String} {warn : Warning}
    {fs g : Fields} {w : List Warning}
    (h : CustomConverter.cacheGeomBlock config clsJ listKey i node attr flag warn fs =
      Except.ok (g, w)) : keysF g = keysF fs := by
  rw [CustomConverter.cacheGeomBlock] at h
  by_cases hn : hasNode fs node = true
  · rw [if_pos hn] at h
    cases hl : CustomConverter.geomLookup config listKey i with
    | error e => rw [hl] at h; cases h
    | ok o =>
      cases o with
      | none =>
        simp only [hl, Except.ok.injEq, Prod.mk.injEq] at h
        rw [← h.1]
      | some sv =>
        simp only [hl, Except.ok.injEq, Prod.mk.injEq] at h
        rw [← h.1, keysF_setF]
  · rw [if_neg hn] at h
    simp only [Except.ok.injEq, Prod.mk.injEq] at h
    rw [← h.1]

theorem custom_cacheGeom_ok_getF_ne {config clsJ : Json} {listKey : String}
    {i : Nat} {node : NodeId} {attr flag : String} {warn : Warning}
    {fs g : Fields} {w : List Warning}
    (h : CustomConverter.cacheGeomBlock config clsJ listKey i node attr flag warn fs =
      Except.ok (g, w)) {k : FieldKey} (hk : ¬ k.1 = node) :
    getF g k = getF fs k := by
  rw [CustomConverter.cacheGeomBlock] at h
  by_cases hn : hasNode fs node = true
  · rw [if_pos hn] at h
    cases hl : CustomConverter.geomLookup config listKey i with
    | error e => rw [hl] at h; cases h
    | ok o =>
      cases o with
      | none =>
        simp only [hl, Except.ok.injEq, Prod.mk.injEq] at h
        rw [← h.1]
      | some sv =>
        simp only [hl, Except.ok.injEq, Prod.mk.injEq] at h
        rw [← h.1, getF_setF_ne_node hk]
  · rw [if_neg hn] at h
    simp only [Except.ok.injEq, Prod.mk.injEq] at h
    rw [← h.1]

theorem custom_cacheGeom_write {config clsJ : Json} {listKey : String}
    {i : Nat} {node : NodeId} {attr flag : String} {warn : Warning}
    {fs : Fields} {sv : String × Json}
    (hn : hasNode fs node = true)
    (hl : CustomConverter.geomLookup config listKey i = Except.ok (some sv)) :
    CustomConverter.cacheGeomBlock config clsJ listKey i node attr flag warn fs =
      Except.ok (setF fs (node, attr)
        (CustomConverter.geomString sv.1 clsJ sv.2 flag), []) := by
  rw [CustomConverter.cacheGeomBlock, if_pos hn, hl]

theorem custom_cacheGeom_miss {config clsJ : Json} {listKey : String}
    {i : Nat} {node : NodeId} {attr flag : String} {warn : Warning}
    {fs : Fields}
    (hn : hasNode fs node = true)
    (hl : CustomConverter.geomLookup config listKey i = Except.ok none) :
    CustomConverter.cacheGeomBlock config clsJ listKey i node attr flag warn fs =
      Except.ok (fs, [warn]) := by
  rw [CustomConverter.cacheGeomBlock, if_pos hn, hl]

theorem custom_coreBody_ok_keysF {stats : CustomConverter.StatTable}
    {config clsJ : Json} {mhz tc : ℚ} {i : Nat}
    {st : Fields × List Warning} {f' : Fields} {w' : List Warning}
    (h : CustomConverter.coreBody stats config clsJ mhz tc i st = Except.ok (f', w')) :
    keysF f' = keysF st.1 := by
  rw [CustomConverter.coreBody] at h
  split at h
  · simp only [] at h
    split at h
    · cases h
    · rename_i fw1 heq1
      split at h
      · cases h
      · rename_i fw2 heq2
        simp only [Except.ok.injEq, Prod.mk.injEq] at h
        rw [← h.1]
        have k2 : keysF fw2.1 = keysF fw1.1 :=
          custom_cacheGeom_ok_keysF (by rw [heq2])
        have k1 : keysF fw1.1 = keysF st.1 := by
          have := custom_cacheGeom_ok_keysF (by rw [heq1])
          rw [this]
          simp only [keysF_setF]
        rw [k2, k1]
  · simp only [Except.ok.injEq] at h
    rw [h]

theorem custom_coreBody_ok_getF_other {stats : CustomConverter.StatTable}
    {config clsJ : Json} {mhz tc : ℚ} {i : Nat}
    {st : Fields × List Warning} {f' : Fields} {w' : List Warning}
    (h : CustomConverter.coreBody stats config clsJ mhz tc i st = Except.ok (f', w'))
    {k : FieldKey} (hkc : ¬ k.1 = NodeId.core i) (hki : ¬ k.1 = NodeId.icache i)
    (hkd : ¬ k.1 = NodeId.dcache i) :
    getF f' k = getF st.1 k := by
  rw [CustomConverter.coreBody] at h
  split at h
  · simp only [] at h
    split at h
    · cases h
    · rename_i fw1 heq1
      split at h
      · cases h
      · rename_i fw2 heq2
        simp only [Except.ok.injEq, Prod.mk.injEq] at h
        rw [← h.1]
        have g2 : getF fw2.1 k = getF fw1.1 k :=
          custom_cacheGeom_ok_getF_ne (by rw [heq2]) hkd
        have g1 : getF fw1.1 k = getF st.1 k := by
          have := custom_cacheGeom_ok_getF_ne (by rw [heq1]) hki
          rw [this]
          simp only [getF_setF_ne_node hkc]
        rw [g2, g1]
  · simp only [Except.ok.injEq] at h
    rw [h]

theorem custom_coreBody_skip {stats : CustomConverter.StatTable}
    {config clsJ : Json} {mhz tc : ℚ} {i : Nat} {st : Fields × List Warning}
    (hkeys : keysF st.1 = keysF CustomConverter.template) (hi : ¬ i = 0) :
    CustomConverter.coreBody stats config clsJ mhz tc i st = Except.ok st := by
  rw [CustomConverter.coreBody, if_neg]
  rw [hasNode_congr hkeys, custom_template_no_core hi]
  exact fun hx => nomatch hx

theorem getF_map_of_isSome {o : Option String} (h : o.isSome = true) (v : String) :
    o.map (fun _ => v) = some v := by
  cases o with
  | none => exact absurd h (by simp)
  | some w => rfl

theorem custom_coreBody_zero_spec {stats : CustomConverter.StatTable}
    {config clsJ : Json} {mhz tc : ℚ}
    {st : Fields × List Warning} {f' : Fields} {w' : List Warning}
    (hkeys : keysF st.1 = keysF CustomConverter.template)
    (h : CustomConverter.coreBody stats config clsJ mhz tc 0 st = Except.ok (f', w')) :
    getF f' (NodeId.core 0, "clock_rate") = some (floatStr mhz) ∧
    getF f' (NodeId.core 0, "total_instructions") =
      some (intStr (CustomConverter.get_stat_value stats "committedInsts" 0).1) ∧
    getF f' (NodeId.core 0, "int_instructions") =
      some (intStr (CustomConverter.get_stat_value stats "int_insts" 0).1) ∧
    getF f' (NodeId.core 0, "branch_instructions") =
      some (intStr (CustomConverter.get_stat_value stats "branches" 0).1) ∧
    getF f' (NodeId.core 0, "load_instructions") =
      some (intStr (CustomConverter.get_stat_value stats
        ("system.l1dcaches" ++ toString 0 ++ ".ReadReq::total") 0).1) ∧
    getF f' (NodeId.core 0, "store_instructions") =
      some (intStr (CustomConverter.get_stat_value stats
        ("system.l1dcaches" ++ toString 0 ++ ".WriteReq::total") 0).1) ∧
    getF f' (NodeId.core 0, "total_cycles") = some (intStr tc) ∧
    getF f' (NodeId.core 0, "busy_cycles") = some (intStr tc) ∧
    getF f' (NodeId.core 0, "idle_cycles") = getF st.1 (NodeId.core 0, "idle_cycles") ∧
    (∀ sv, CustomConverter.geomLookup config "l1dcaches" 0 = Except.ok (some sv) →
      getF f' (NodeId.dcache 0, "dcache_config") =
        some (CustomConverter.geomString sv.1 clsJ sv.2 "1")) := by
  rw [CustomConverter.coreBody] at h
  rw [if_pos (by rw [hasNode_congr hkeys]; decide)] at h
  simp only [] at h
  split at h
  · cases h
  · rename_i fw1 heq1
    split at h
    · cases h
    · rename_i fw2 heq2
      simp only [Except.ok.injEq, Prod.mk.injEq] at h
      have hf : f' = fw2.1 := h.1.symm
      subst hf
      have hCore : ∀ a : String, getF fw2.1 (NodeId.core 0, a) =
          getF (setF (setF (setF (setF (setF (setF (setF (setF (setF (setF (setF
            (setF (setF st.1
            (NodeId.core 0, "clock_rate") (floatStr mhz))
            (NodeId.core 0, "total_instructions")
              (intStr (CustomConverter.get_stat_value stats "committedInsts" 0).1))
            (NodeId.core 0, "int_instructions")
              (intStr (CustomConverter.get_stat_value stats "int_insts" 0).1))
            (NodeId.core 0, "fp_instructions")
              (intStr (CustomConverter.get_stat_value stats "fp_insts" 0).1))
            (NodeId.core 0, "branch_instructions")
              (intStr (CustomConverter.get_stat_value stats "branches" 0).1))
            (NodeId.core 0, "branch_mispredictions")
              (intStr (CustomConverter.get_stat_value stats "branchMispredicts" 0).1))
            (NodeId.core 0, "load_instructions")
              (intStr (CustomConverter.get_stat_value stats
                ("system.l1dcaches" ++ toString 0 ++ ".ReadReq::total") 0).1))
            (NodeId.core 0, "store_instructions")
              (intStr (CustomConverter.get_stat_value stats
                ("system.l1dcaches" ++ toString 0 ++ ".WriteReq::total") 0).1))
            (NodeId.core 0, "committed_instructions")
              (intStr (CustomConverter.get_stat_value stats "committedInsts" 0).1))
            (NodeId.core 0, "committed_int_instructions")
              (intStr (CustomConverter.get_stat_value stats "int_insts" 0).1))
            (NodeId.core 0, "committed_fp_instructions")
              (intStr (CustomConverter.get_stat_value stats "fp_insts" 0).1))
            (NodeId.core 0, "total_cycles") (intStr tc))
            (NodeId.core 0, "busy_cycles") (intStr tc))
            (NodeId.core 0, a) := by
        intro a
        have g2 : getF fw2.1 (NodeId.core 0, a) = getF fw1.1 (NodeId.core 0, a) :=
          custom_cacheGeom_ok_getF_ne (by rw [heq2]) (by simp)
        have g1 := custom_cacheGeom_ok_getF_ne (k := (NodeId.core 0, a))
          (by rw [heq1]) (by simp)
        rw [g2, g1]
      have hSome : ∀ a : String,
          (getF CustomConverter.template (NodeId.core 0, a)).isSome = true →
          ∃ vv, getF st.1 (NodeId.core 0, a) = some vv := by
        intro a ha
        exact Option.isSome_iff_exists.mp (by rw [getF_isSome_congr hkeys]; exact ha)
      refine ⟨?_, ?_, ?_, ?_, ?_, ?_, ?_, ?_, ?_, ?_⟩
      · obtain ⟨vv, hv⟩ := hSome "clock_rate" (by decide)
        rw [hCore]
        simp only [getF_setF]
        simp [hv]
      · obtain ⟨vv, hv⟩ := hSome "total_instructions" (by decide)
        rw [hCore]
        simp only [getF_setF]
        simp [hv]
      · obtain ⟨vv, hv⟩ := hSome "int_instructions" (by decide)
        rw [hCore]
        simp only [getF_setF]
        simp [hv]
      · obtain ⟨vv, hv⟩ := hSome "branch_instructions" (by decide)
        rw [hCore]
        simp only [getF_setF]
        simp [hv]
      · obtain ⟨vv, hv⟩ := hSome "load_instructions" (by decide)
        rw [hCore]
        simp only [getF_setF]
        simp [hv]
      · obtain ⟨vv, hv⟩ := hSome "store_instructions" (by decide)
        rw [hCore]
        simp only [getF_setF]
        simp [hv]
      · obtain ⟨vv, hv⟩ := hSome "total_cycles" (by decide)
        rw [hCore]
        simp only [getF_setF]
        simp [hv]
      · obtain ⟨vv, hv⟩ := hSome "busy_cycles" (by decide)
        rw [hCore]
        simp only [getF_setF]
        simp [hv]
      · rw [hCore]
        simp only [getF_setF]
        simp
      · intro sv hlookD
        have hkeys1 : keysF fw1.1 = keysF CustomConverter.template := by
          have hk := custom_cacheGeom_ok_keysF (by rw [heq1])
          rw [hk]
          simp only [keysF_setF]
          exact hkeys
        have hn : hasNode fw1.1 (NodeId.dcache 0) = true := by
          rw [hasNode_congr hkeys1]; decide
        have hwrite := @custom_cacheGeom_write config clsJ "l1dcaches" 0
          (NodeId.dcache 0) "dcache_config" "1" Warning.l1dConfigMissing
          fw1.1 sv hn hlookD
        rw [hwrite] at heq2
        simp only [Except.ok.injEq] at heq2
        rw [← heq2]
        exact getF_setF_self_of_isSome
          (by rw [getF_isSome_congr hkeys1]; decide) _

theorem custom_coreLoop_ok_keysF {stats : CustomConverter.StatTable}
    {config clsJ : Json} {mhz tc : ℚ} :
    ∀ (l : List Nat) (st : Fields × List Warning) (f' : Fields) (w' : List Warning),
    CustomConverter.coreLoop stats config clsJ mhz tc l st = Except.ok (f', w') →
    keysF f' = keysF st.1 := by
  intro l
  induction l with
  | nil =>
    intro st f' w' h
    rw [CustomConverter.coreLoop] at h
    simp only [Except.ok.injEq] at h
    rw [h]
  | cons i rest ih =>
    intro st f' w' h
    rw [CustomConverter.coreLoop] at h
    cases hb : CustomConverter.coreBody stats config clsJ mhz tc i st with
    | error e => rw [hb] at h; cases h
    | ok st2 =>
      simp only [hb] at h
      have h1 : keysF st2.1 = keysF st.1 :=
        custom_coreBody_ok_keysF (by rw [hb])
      have h2 := ih st2 f' w' h
      rw [h2, h1]

theorem custom_coreLoop_ok_getF_other {stats : CustomConverter.StatTable}
    {config clsJ : Json} {mhz tc : ℚ} {k : FieldKey}
    (hk : ∀ i : Nat, ¬ k.1 = NodeId.core i ∧ ¬ k.1 = NodeId.icache i ∧
      ¬ k.1 = NodeId.dcache i) :
    ∀ (l : List Nat) (st : Fields × List Warning) (f' : Fields) (w' : List Warning),
    CustomConverter.coreLoop stats config clsJ mhz tc l st = Except.ok (f', w') →
    getF f' k = getF st.1 k := by
  intro l
  induction l with
  | nil =>
    intro st f' w' h
    rw [CustomConverter.coreLoop] at h
    simp only [Except.ok.injEq] at h
    rw [h]
  | cons i rest ih =>
    intro st f' w' h
    rw [CustomConverter.coreLoop] at h
    cases hb : CustomConverter.coreBody stats config clsJ mhz tc i st with
    | error e => rw [hb] at h; cases h
    | ok st2 =>
      simp only [hb] at h
      have h1 : getF st2.1 k = getF st.1 k :=
        custom_coreBody_ok_getF_other (by rw [hb]) (hk i).1 (hk i).2.1 (hk i).2.2
      have h2 := ih st2 f' w' h
      rw [h2, h1]

theorem custom_coreLoop_skip {stats : CustomConverter.StatTable}
    {config clsJ : Json} {mhz tc : ℚ} :
    ∀ (l : List Nat) (st : Fields × List Warning),
    (∀ i ∈ l, ¬ i = 0) → keysF st.1 = keysF CustomConverter.template →
    CustomConverter.coreLoop stats config clsJ mhz tc l st = Except.ok st := by
  intro l
  induction l with
  | nil => intro st _ _; rfl
  | cons i rest ih =>
    intro st hmem hkeys
    rw [CustomConverter.coreLoop,
      custom_coreBody_skip hkeys (hmem i (by simp))]
    exact ih st (fun j hj => hmem j (by simp [hj])) hkeys

theorem custom_l2Body_keysF (stats : CustomConverter.StatTable) (i : Nat)
    (st : Fields × List Warning) :
    keysF (CustomConverter.l2Body stats i st).1 = keysF st.1 := by
  rw [CustomConverter.l2Body]
  by_cases hn : hasNode st.1 (NodeId.l2 i) = true
  · rw [if_pos hn]
    simp only [keysF_setF]
  · rw [if_neg hn]

theorem custom_l2Body_getF_ne (stats : CustomConverter.StatTable) (i : Nat)
    (st : Fields × List Warning) {k : FieldKey} (hk : ¬ k.1 = NodeId.l2 i) :
    getF (CustomConverter.l2Body stats i st).1 k = getF st.1 k := by
  rw [CustomConverter.l2Body]
  by_cases hn : hasNode st.1 (NodeId.l2 i) = true
  · rw [if_pos hn]
    simp only [getF_setF_ne_node hk]
  · rw [if_neg hn]

theorem custom_l2Loop_keysF (stats : CustomConverter.StatTable) :
    ∀ (l : List Nat) (st : Fields × List Warning),
    keysF (CustomConverter.l2Loop stats l st).1 = keysF st.1 := by
  intro l
  induction l with
  | nil => intro st; rfl
  | cons i rest ih =>
    intro st
    rw [CustomConverter.l2Loop, ih, custom_l2Body_keysF]

theorem custom_l2Loop_getF_other (stats : CustomConverter.StatTable)
    {k : FieldKey} (hk : ∀ i : Nat, ¬ k.1 = NodeId.l2 i) :
    ∀ (l : List Nat) (st : Fields × List Warning),
    getF (CustomConverter.l2Loop stats l st).1 k = getF st.1 k := by
  intro l
  induction l with
  | nil => intro st; rfl
  | cons i rest ih =>
    intro st
    rw [CustomConverter.l2Loop, ih, custom_l2Body_getF_ne stats i st (hk i)]

theorem custom_l2Count_one {fs : Fields}
    (h : getF fs (NodeId.system, "number_of_L2s") = some "1") :
    CustomConverter.l2Count fs = Except.ok 1 := by
  rw [CustomConverter.l2Count, h]
  rfl

theorem custom_create_ok_inv {stats : CustomConverter.StatTable} {cfg0 : Json}
    {out : Fields} {ws : List Warning}
    (h : CustomConverter.create_mcpat_xml stats cfg0 = Except.ok (out, ws)) :
    ∃ config boardJ clsJ board2 procJ coresJ fL wL nL2,
      CustomConverter.normalizeConfig cfg0 = Except.ok config ∧
      dictGet config "board" (Json.obj []) = Except.ok boardJ ∧
      dictGet boardJ "cache_line_size" (Json.num 64) = Except.ok clsJ ∧
      dictGet config "board" (Json.obj []) = Except.ok board2 ∧
      dictGet board2 "processor" (Json.obj []) = Except.ok procJ ∧
      dictGet procJ "cores" (Json.arr []) = Except.ok coresJ ∧
      CustomConverter.coreLoop stats config clsJ
        (CustomConverter.systemSection stats (CustomConverter.numCoresOf coresJ)
          CustomConverter.template).2.2
        (CustomConverter.systemSection stats (CustomConverter.numCoresOf coresJ)
          CustomConverter.template).2.1
        (List.range (CustomConverter.numCoresOf coresJ))
        (CustomConverter.systemSection stats (CustomConverter.numCoresOf coresJ)
          CustomConverter.template).1 = Except.ok (fL, wL) ∧
      CustomConverter.l2Count fL = Except.ok nL2 ∧
      out = (CustomConverter.l2Loop stats (List.range nL2) (fL, wL)).1 ∧
      ws = (CustomConverter.l2Loop stats (List.range nL2) (fL, wL)).2 := by
  rw [CustomConverter.create_mcpat_xml] at h
  cases hcfg : CustomConverter.normalizeConfig cfg0 with
  | error e => rw [hcfg] at h; cases h
  | ok config =>
    simp only [hcfg] at h
    cases hb : dictGet config "board" (Json.obj []) with
    | error e => rw [hb] at h; cases h
    | ok boardJ =>
      simp only [hb] at h
      cases hcls : dictGet boardJ "cache_line_size" (Json.num 64) with
      | error e => rw [hcls] at h; cases h
      | ok clsJ =>
        simp only [hcls] at h
        cases hp : dictGet boardJ "processor" (Json.obj []) with
        | error e => rw [hp] at h; cases h
        | ok procJ =>
          simp only [hp] at h
          cases hc : dictGet procJ "cores" (Json.arr []) with
          | error e => rw [hc] at h; cases h
          | ok coresJ =>
            simp only [hc] at h
            cases hloop : CustomConverter.coreLoop stats config clsJ
                (CustomConverter.systemSection stats
                  (CustomConverter.numCoresOf coresJ) CustomConverter.template).2.2
                (CustomConverter.systemSection stats
                  (CustomConverter.numCoresOf coresJ) CustomConverter.template).2.1
                (List.range (CustomConverter.numCoresOf coresJ))
                (CustomConverter.systemSection stats
                  (CustomConverter.numCoresOf coresJ) CustomConverter.template).1 with
            | error e => rw [hloop] at h; cases h
            | ok stL =>
              obtain ⟨fL, wL⟩ := stL
              simp only [hloop] at h
              cases hn2 : CustomConverter.l2Count fL with
              | error e => rw [hn2] at h; cases h
              | ok nL2 =>
                simp only [hn2, Except.ok.injEq, Prod.mk.injEq] at h
                exact ⟨config, boardJ, clsJ, boardJ, procJ, coresJ, fL, wL, nL2,
                  rfl, hb, hcls, hb, hp, hc, hloop, hn2,
                  (congrArg Prod.fst h.symm).trans rfl,
                  (congrArg Prod.snd h.symm).trans rfl⟩

theorem custom_coreCount_eq {tfs : List (String × Json)}
    {boardJ procJ coresJ : Json}
    (hb : dictGet (Json.obj tfs) "board" (Json.obj []) = Except.ok boardJ)
    (hp : dictGet boardJ "processor" (Json.obj []) = Except.ok procJ)
    (hc : dictGet procJ "cores" (Json.arr []) = Except.ok coresJ) :
    coreCountAmended (Json.obj tfs) = CustomConverter.numCoresOf coresJ := by
  rw [dictGet] at hb
  simp only [Except.ok.injEq] at hb
  cases hdb : dget tfs "board" with
  | none =>
    rw [hdb] at hb
    simp only [Option.getD] at hb
    subst hb
    rw [dictGet] at hp
    simp only [Except.ok.injEq, dget, Option.getD] at hp
    subst hp
    rw [dictGet] at hc
    simp only [Except.ok.injEq, dget, Option.getD] at hc
    subst hc
    simp [coreCountAmended, CustomConverter.numCoresOf, hdb]
  | some bv =>
    rw [hdb] at hb
    simp only [Option.getD] at hb
    subst hb
    cases bv with
    | obj bfs =>
      rw [dictGet] at hp
      simp only [Except.ok.injEq] at hp
      cases hdp : dget bfs "processor" with
      | none =>
        rw [hdp] at hp
        simp only [Option.getD] at hp
        subst hp
        rw [dictGet] at hc
        simp only [Except.ok.injEq, dget, Option.getD] at hc
        subst hc
        simp [coreCountAmended, CustomConverter.numCoresOf, hdb, hdp]
      | some pv =>
        rw [hdp] at hp
        simp only [Option.getD] at hp
        subst hp
        cases pv with
        | obj pfs =>
          rw [dictGet] at hc
          simp only [Except.ok.injEq] at hc
          cases hdc : dget pfs "cores" with
          | none =>
            rw [hdc] at hc
            simp only [Option.getD] at hc
            subst hc
            simp [coreCountAmended, CustomConverter.numCoresOf, hdb, hdp, hdc]
          | some cv =>
            rw [hdc] at hc
            simp only [Option.getD] at hc
            subst hc
            cases cv <;>
              simp [coreCountAmended, CustomConverter.numCoresOf, hdb, hdp, hdc]
        | null => cases hc
        | bool b => cases hc
        | num q => cases hc
        | str s => cases hc
        | arr xs => cases hc
    | null => cases hp
    | bool b => cases hp
    | num q => cases hp
    | str s => cases hp
    | arr xs => cases hp

theorem custom_clsOf_eq {tfs : List (String × Json)} {boardJ clsJ : Json}
    (hb : dictGet (Json.obj tfs) "board" (Json.obj []) = Except.ok boardJ)
    (hcls : dictGet boardJ "cache_line_size" (Json.num 64) = Except.ok clsJ) :
    clsJ = cacheLineSizeOf tfs := by
  rw [dictGet] at hb
  simp only [Except.ok.injEq] at hb
  cases hdb : dget tfs "board" with
  | none =>
    rw [hdb] at hb
    simp only [Option.getD] at hb
    subst hb
    rw [dictGet] at hcls
    simp only [Except.ok.injEq, dget, Option.getD] at hcls
    subst hcls
    simp [cacheLineSizeOf, hdb, dget]
  | some bv =>
    rw [hdb] at hb
    simp only [Option.getD] at hb
    subst hb
    cases bv with
    | obj bfs =>
      rw [dictGet] at hcls
      simp only [Except.ok.injEq] at hcls
      subst hcls
      simp [cacheLineSizeOf, hdb]
    | null => cases hcls
    | bool b => cases hcls
    | num q => cases hcls
    | str s => cases hcls
    | arr xs => cases hcls

/-- **C1 (amended).** The core count written into `number_of_cores`
equals the length of the sequence at `config.board.processor.cores` when
that path holds a sequence; when the path is absent the `.get` defaults
produce the empty list and the written count is 0 (not 1); the fallback
of 1 applies only when a `cores` entry exists but is not a sequence. -/
theorem c1_core_count_amended (stats : CustomConverter.StatTable)
    (tfs : List (String × Json)) (out : Fields) (ws : List Warning)
    (h : CustomConverter.create_mcpat_xml stats (Json.obj tfs) = Except.ok (out, ws)) :
    getF out (NodeId.system, "number_of_cores") =
      some (toString (coreCountAmended (Json.obj tfs))) := by
  obtain ⟨config, boardJ, clsJ, board2, procJ, coresJ, fL, wL, nL2,
    hcfg, hb, hcls, hb2, hp, hc, hloop, hn2, hout, hws⟩ := custom_create_ok_inv h
  have hconfig : Json.obj tfs = config := by
    rw [CustomConverter.normalizeConfig] at hcfg
    simp only [Except.ok.injEq] at hcfg
    exact hcfg
  subst hconfig
  have hbb : boardJ = board2 := by
    rw [hb] at hb2
    simp only [Except.ok.injEq] at hb2
    exact hb2
  subst hbb
  have hcount := custom_coreCount_eq hb hp hc
  subst hout
  have hl2k : ∀ i : Nat,
      ¬ ((NodeId.system, "number_of_cores") : FieldKey).1 = NodeId.l2 i :=
    fun i => by simp
  have hkk : ∀ i : Nat,
      ¬ ((NodeId.system, "number_of_cores") : FieldKey).1 = NodeId.core i ∧
      ¬ ((NodeId.system, "number_of_cores") : FieldKey).1 = NodeId.icache i ∧
      ¬ ((NodeId.system, "number_of_cores") : FieldKey).1 = NodeId.dcache i :=
    fun i => ⟨by simp, by simp, by simp⟩
  rw [custom_l2Loop_getF_other stats hl2k]
  show getF fL (NodeId.system, "number_of_cores") =
    some (toString (coreCountAmended (Json.obj tfs)))
  have hpres := custom_coreLoop_ok_getF_other hkk _ _ _ _ hloop
  rw [hpres]
  have hsys := custom_systemSection_fields stats
    (CustomConverter.numCoresOf coresJ) CustomConverter.template
    (by decide) (by decide) (by decide) (by decide)
  rw [hsys.1, hcount]

/-- **C1 counterexample.** On the empty config `{}` the
`board.processor.cores` path is absent and the conversion writes
`number_of_cores = "0"`, not the claimed default of 1. -/
theorem c1_core_count_counterexample :
    getF (okFields (CustomConverter.create_mcpat_xml [] cfgEmpty))
      (NodeId.system, "number_of_cores") = some "0" ∧
    (some "0" : Option String) ≠ some "1" := by
  exact ⟨by decide, by decide⟩

/-- Witness for C1 (amended): a two-element cores sequence yields
`number_of_cores = "2"`. -/
theorem c1_core_count_witness :
    getF (okFields (CustomConverter.create_mcpat_xml [] cfgTwoCores))
      (NodeId.system, "number_of_cores") = some "2" := by
  have h : CustomConverter.create_mcpat_xml [] cfgTwoCores =
      Except.ok (okFields (CustomConverter.create_mcpat_xml [] cfgTwoCores),
        okWarns (CustomConverter.create_mcpat_xml [] cfgTwoCores)) := by rfl
  have happ := c1_core_count_amended [] [("board", Json.obj
    [("processor", Json.obj
      [("cores", Json.arr [Json.obj [], Json.obj []])])])] _ _ h
  exact happ.trans (by decide)

theorem custom_coreLoop_range_cases {stats : CustomConverter.StatTable}
    {config clsJ : Json} {mhz tc : ℚ} {n : Nat} {st : Fields × List Warning}
    {fL : Fields} {wL : List Warning}
    (hkeys : keysF st.1 = keysF CustomConverter.template)
    (h : CustomConverter.coreLoop stats config clsJ mhz tc (List.range n) st =
      Except.ok (fL, wL)) :
    (n = 0 ∧ fL = st.1) ∨
    (1 ≤ n ∧ CustomConverter.coreBody stats config clsJ mhz tc 0 st =
      Except.ok (fL, wL)) := by
  cases n with
  | zero =>
    left
    refine ⟨rfl, ?_⟩
    rw [List.range_zero, CustomConverter.coreLoop] at h
    simp only [Except.ok.injEq] at h
    exact (congrArg Prod.fst h).symm
  | succ m =>
    right
    refine ⟨Nat.succ_le_succ (Nat.zero_le m), ?_⟩
    rw [List.range_succ_eq_map, CustomConverter.coreLoop] at h
    cases hb : CustomConverter.coreBody stats config clsJ mhz tc 0 st with
    | error e => rw [hb] at h; cases h
    | ok st1 =>
      simp only [hb] at h
      have hkeys1 : keysF st1.1 = keysF CustomConverter.template := by
        rw [custom_coreBody_ok_keysF (by rw [hb]), hkeys]
      have hmem : ∀ j ∈ List.map Nat.succ (List.range m), ¬ j = 0 := by
        intro j hj
        simp only [List.mem_map] at hj
        obtain ⟨x, _, hx⟩ := hj
        omega
      rw [custom_coreLoop_skip _ _ hmem hkeys1] at h
      simp only [Except.ok.injEq] at h
      rw [h]

/-- **C10 (amended).** The fuller-template populate always writes the
system-level `total_cycles` and `busy_cycles` to the int-truncated
resolved total-cycles value and leaves `idle_cycles` at the template
value 0 (system and core level); the core-level `busy_cycles` always
equals the core-level `total_cycles` in the output, but it is written
with the resolved value only when the core loop visits core 0 (core
count at least 1) — with a zero core count both stay at the template
value 100000. -/
theorem c10_busy_cycles_amended (stats : CustomConverter.StatTable)
    (tfs : List (String × Json)) (out : Fields) (ws : List Warning)
    (h : CustomConverter.create_mcpat_xml stats (Json.obj tfs) = Except.ok (out, ws)) :
    getF out (NodeId.system, "total_cycles") =
      some (intStr (CustomConverter.get_stat_value stats "total_cycles" 0).1) ∧
    getF out (NodeId.system, "busy_cycles") =
      some (intStr (CustomConverter.get_stat_value stats "total_cycles" 0).1) ∧
    getF out (NodeId.system, "idle_cycles") = some "0" ∧
    getF out (NodeId.core 0, "idle_cycles") = some "0" ∧
    getF out (NodeId.core 0, "busy_cycles") =
      getF out (NodeId.core 0, "total_cycles") ∧
    (1 ≤ coreCountAmended (Json.obj tfs) →
      getF out (NodeId.core 0, "busy_cycles") =
        some (intStr (CustomConverter.get_stat_value stats "total_cycles" 0).1)) := by
  obtain ⟨config, boardJ, clsJ, board2, procJ, coresJ, fL, wL, nL2,
    hcfg, hb, hcls, hb2, hp, hc, hloop, hn2, hout, hws⟩ := custom_create_ok_inv h
  have hconfig : Json.obj tfs = config := by
    rw [CustomConverter.normalizeConfig] at hcfg
    simp only [Except.ok.injEq] at hcfg
    exact hcfg
  subst hconfig
  have hbb : boardJ = board2 := by
    rw [hb] at hb2
    simp only [Except.ok.injEq] at hb2
    exact hb2
  subst hbb
  have hcount := custom_coreCount_eq hb hp hc
  subst hout
  have hsysKeys : keysF (CustomConverter.systemSection stats
      (CustomConverter.numCoresOf coresJ) CustomConverter.template).1.1 =
      keysF CustomConverter.template :=
    custom_systemSection_keysF stats _ _
  have hsys := custom_systemSection_fields stats
    (CustomConverter.numCoresOf coresJ) CustomConverter.template
    (by decide) (by decide) (by decide) (by decide)
  have htc : (CustomConverter.systemSection stats
      (CustomConverter.numCoresOf coresJ) CustomConverter.template).2.1 =
      (CustomConverter.get_stat_value stats "total_cycles" 0).1 := rfl
  have hsysT : ∀ a : String,
      getF (CustomConverter.l2Loop stats (List.range nL2) (fL, wL)).1
        (NodeId.system, a) =
      getF (CustomConverter.systemSection stats
        (CustomConverter.numCoresOf coresJ) CustomConverter.template).1.1
        (NodeId.system, a) := by
    intro a
    have hl2 : ∀ i : Nat, ¬ ((NodeId.system, a) : FieldKey).1 = NodeId.l2 i :=
      fun i => by simp
    have hkk : ∀ i : Nat,
        ¬ ((NodeId.system, a) : FieldKey).1 = NodeId.core i ∧
        ¬ ((NodeId.system, a) : FieldKey).1 = NodeId.icache i ∧
        ¬ ((NodeId.system, a) : FieldKey).1 = NodeId.dcache i :=
      fun i => ⟨by simp, by simp, by simp⟩
    rw [custom_l2Loop_getF_other stats hl2]
    show getF fL (NodeId.system, a) = _
    exact custom_coreLoop_ok_getF_other hkk _ _ _ _ hloop
  have hcoreT : ∀ a : String,
      getF (CustomConverter.l2Loop stats (List.range nL2) (fL, wL)).1
        (NodeId.core 0, a) = getF fL (NodeId.core 0, a) := by
    intro a
    have hl2 : ∀ i : Nat, ¬ ((NodeId.core 0, a) : FieldKey).1 = NodeId.l2 i :=
      fun i => by simp
    rw [custom_l2Loop_getF_other stats hl2]
  have hcore0 : getF fL (NodeId.core 0, "idle_cycles") = some "0" ∧
      getF fL (NodeId.core 0, "busy_cycles") =
        getF fL (NodeId.core 0, "total_cycles") ∧
      (1 ≤ CustomConverter.numCoresOf coresJ →
        getF fL (NodeId.core 0, "busy_cycles") =
          some (intStr (CustomConverter.get_stat_value stats "total_cycles" 0).1)) := by
    rcases custom_coreLoop_range_cases hsysKeys hloop with ⟨hn0, hfL⟩ | ⟨hn1, hbody⟩
    · subst hfL
      have hTpl : ∀ a : String,
          getF (CustomConverter.systemSection stats
            (CustomConverter.numCoresOf coresJ) CustomConverter.template).1.1
            (NodeId.core 0, a) =
          getF CustomConverter.template (NodeId.core 0, a) :=
        fun a => custom_systemSection_getF_ne stats _ _ (by simp)
      refine ⟨?_, ?_, ?_⟩
      · rw [hTpl]; decide
      · rw [hTpl, hTpl]; decide
      · intro h1
        rw [hn0] at h1
        exact absurd h1 (by omega)
    · have zspec := custom_coreBody_zero_spec hsysKeys hbody
      refine ⟨?_, ?_, ?_⟩
      · rw [zspec.2.2.2.2.2.2.2.2.1,
          custom_systemSection_getF_ne stats _ _ (by simp)]
        decide
      · rw [zspec.2.2.2.2.2.2.2.1, zspec.2.2.2.2.2.2.1]
      · intro _
        rw [zspec.2.2.2.2.2.2.2.1, htc]
  refine ⟨?_, ?_, ?_, ?_, ?_, ?_⟩
  · rw [hsysT, hsys.2.1]
  · rw [hsysT, hsys.2.2.1]
  · rw [hsysT, hsys.2.2.2.2.1]
    decide
  · rw [hcoreT]
    exact hcore0.1
  · rw [hcoreT, hcoreT]
    exact hcore0.2.1
  · intro h1
    rw [hcount] at h1
    rw [hcoreT]
    exact hcore0.2.2 h1

/-- **C10 counterexample.** With `total_cycles = 5` in the stats and the
empty config the core loop runs zero times: the system-level
`busy_cycles` is written to `"5"` but the core-level `busy_cycles`
remains at the template value `"100000"`, so the core-level write is not
unconditional. -/
theorem c10_busy_cycles_counterexample :
    getF (okFields (CustomConverter.create_mcpat_xml statsTC5 cfgEmpty))
      (NodeId.system, "busy_cycles") = some "5" ∧
    getF (okFields (CustomConverter.create_mcpat_xml statsTC5 cfgEmpty))
      (NodeId.core 0, "busy_cycles") = some "100000" ∧
    intStr (CustomConverter.get_stat_value statsTC5 "total_cycles" 0).1 = "5" ∧
    ("100000" : String) ≠ "5" := by
  exact ⟨by decide, by decide, by decide, by decide⟩

/-- Witness for C10 (amended): with one configured core and
`total_cycles = 5` the core-level `busy_cycles` reads `"5"` and the
system-level `idle_cycles` stays `"0"`. -/
theorem c10_busy_cycles_witness :
    getF (okFields (CustomConverter.create_mcpat_xml statsTC5 cfgOneCore))
      (NodeId.core 0, "busy_cycles") = some "5" ∧
    getF (okFields (CustomConverter.create_mcpat_xml statsTC5 cfgOneCore))
      (NodeId.system, "idle_cycles") = some "0" := by
  have h : CustomConverter.create_mcpat_xml statsTC5 cfgOneCore =
      Except.ok (okFields (CustomConverter.create_mcpat_xml statsTC5 cfgOneCore),
        okWarns (CustomConverter.create_mcpat_xml statsTC5 cfgOneCore)) := by rfl
  have happ := c10_busy_cycles_amended statsTC5 [("board", Json.obj
    [("cache_line_size", Json.num 64),
     ("processor", Json.obj [("cores", Json.arr [Json.obj []])]),
     ("cache_hierarchy", Json.obj
       [("l1icaches", Json.arr [Json.obj
          [("size", Json.num 16384), ("assoc", Json.num 4)]]),
        ("l1dcaches", Json.arr [Json.obj
          [("size", Json.num 32768), ("assoc", Json.num 8)]])])])] _ _ h
  refine ⟨?_, ?_⟩
  · exact (happ.2.2.2.2.2 (by decide)).trans (by decide)
  · exact happ.2.2.1

/-- **C3 (amended).** The per-core loop iterates over all core indices
0..count-1, but the fuller template contains only a `core0` component:
for every index i ≥ 1 the `find` returns no node and the guard silently
skips the body, so no `core i` field exists in the output; only core 0
(populated whenever the core count is at least 1) receives its
instruction counts, cycle counts, the shared clock rate, and — when the
index-0 L1D config lookup succeeds — the comma-joined cache-geometry
string. -/
theorem c3_per_core_population_amended (stats : CustomConverter.StatTable)
    (tfs : List (String × Json)) (out : Fields) (ws : List Warning)
    (h : CustomConverter.create_mcpat_xml stats (Json.obj tfs) = Except.ok (out, ws)) :
    (∀ i : Nat, 1 ≤ i → ∀ a : String, getF out (NodeId.core i, a) = none) ∧
    (1 ≤ coreCountAmended (Json.obj tfs) →
      getF out (NodeId.core 0, "clock_rate") =
        some (floatStr ((CustomConverter.get_stat_value stats
          "system.clk_domain.clock" 1000000000).1 / 1000000)) ∧
      getF out (NodeId.core 0, "total_instructions") =
        some (intStr (CustomConverter.get_stat_value stats "committedInsts" 0).1) ∧
      getF out (NodeId.core 0, "int_instructions") =
        some (intStr (CustomConverter.get_stat_value stats "int_insts" 0).1) ∧
      getF out (NodeId.core 0, "branch_instructions") =
        some (intStr (CustomConverter.get_stat_value stats "branches" 0).1) ∧
      getF out (NodeId.core 0, "load_instructions") =
        some (intStr (CustomConverter.get_stat_value stats
          ("system.l1dcaches" ++ toString 0 ++ ".ReadReq::total") 0).1) ∧
      getF out (NodeId.core 0, "store_instructions") =
        some (intStr (CustomConverter.get_stat_value stats
          ("system.l1dcaches" ++ toString 0 ++ ".WriteReq::total") 0).1) ∧
      getF out (NodeId.core 0, "total_cycles") =
        some (intStr (CustomConverter.get_stat_value stats "total_cycles" 0).1) ∧
      (∀ sv, CustomConverter.geomLookup (Json.obj tfs) "l1dcaches" 0 =
          Except.ok (some sv) →
        getF out (NodeId.dcache 0, "dcache_config") =
          some (CustomConverter.geomString sv.1 (cacheLineSizeOf tfs) sv.2 "1"))) := by
  obtain ⟨config, boardJ, clsJ, board2, procJ, coresJ, fL, wL, nL2,
    hcfg, hb, hcls, hb2, hp, hc, hloop, hn2, hout, hws⟩ := custom_create_ok_inv h
  have hconfig : Json.obj tfs = config := by
    rw [CustomConverter.normalizeConfig] at hcfg
    simp only [Except.ok.injEq] at hcfg
    exact hcfg
  subst hconfig
  have hbb : boardJ = board2 := by
    rw [hb] at hb2
    simp only [Except.ok.injEq] at hb2
    exact hb2
  subst hbb
  have hcount := custom_coreCount_eq hb hp hc
  have hcl := custom_clsOf_eq hb hcls
  subst hout
  have hsysKeys : keysF (CustomConverter.systemSection stats
      (CustomConverter.numCoresOf coresJ) CustomConverter.template).1.1 =
      keysF CustomConverter.template :=
    custom_systemSection_keysF stats _ _
  have hkeysOut : keysF (CustomConverter.l2Loop stats (List.range nL2) (fL, wL)).1 =
      keysF CustomConverter.template := by
    rw [custom_l2Loop_keysF]
    show keysF fL = keysF CustomConverter.template
    rw [custom_coreLoop_ok_keysF _ _ _ _ hloop, hsysKeys]
  refine ⟨?_, ?_⟩
  · intro i hi a
    exact getF_eq_none_of_keysF hkeysOut (custom_template_core_none (by omega) a)
  · intro h1
    rw [hcount] at h1
    have hT0 : ∀ a : String,
        getF (CustomConverter.l2Loop stats (List.range nL2) (fL, wL)).1
          (NodeId.core 0, a) = getF fL (NodeId.core 0, a) := by
      intro a
      have hl2 : ∀ i : Nat, ¬ ((NodeId.core 0, a) : FieldKey).1 = NodeId.l2 i :=
        fun i => by simp
      exact custom_l2Loop_getF_other stats hl2 _ _
    have hTd : ∀ a : String,
        getF (CustomConverter.l2Loop stats (List.range nL2) (fL, wL)).1
          (NodeId.dcache 0, a) = getF fL (NodeId.dcache 0, a) := by
      intro a
      have hl2 : ∀ i : Nat, ¬ ((NodeId.dcache 0, a) : FieldKey).1 = NodeId.l2 i :=
        fun i => by simp
      exact custom_l2Loop_getF_other stats hl2 _ _
    rcases custom_coreLoop_range_cases hsysKeys hloop with ⟨hn0, _⟩ | ⟨_, hbody⟩
    · rw [hn0] at h1
      exact absurd h1 (by omega)
    · have zspec := custom_coreBody_zero_spec hsysKeys hbody
      have hmhz : (CustomConverter.systemSection stats
          (CustomConverter.numCoresOf coresJ) CustomConverter.template).2.2 =
          (CustomConverter.get_stat_value stats
            "system.clk_domain.clock" 1000000000).1 / 1000000 := rfl
      have htc : (CustomConverter.systemSection stats
          (CustomConverter.numCoresOf coresJ) CustomConverter.template).2.1 =
          (CustomConverter.get_stat_value stats "total_cycles" 0).1 := rfl
      refine ⟨?_, ?_, ?_, ?_, ?_, ?_, ?_, ?_⟩
      · rw [hT0, zspec.1, hmhz]
      · rw [hT0, zspec.2.1]
      · rw [hT0, zspec.2.2.1]
      · rw [hT0, zspec.2.2.2.1]
      · rw [hT0, zspec.2.2.2.2.1]
      · rw [hT0, zspec.2.2.2.2.2.1]
      · rw [hT0, zspec.2.2.2.2.2.2.1, htc]
      · intro sv hsv
        rw [hTd, zspec.2.2.2.2.2.2.2.2.2 sv hsv, hcl]

/-- **C3 counterexample.** With two configured cores the run completes,
but core 1 receives no fields at all: the fuller template has no `core1`
component, so the claimed population "for every core index i up to core
count minus 1" fails already at i = 1. -/
theorem c3_per_core_counterexample :
    coreCountAmended cfgTwoCores = 2 ∧
    isOkRun (CustomConverter.create_mcpat_xml [] cfgTwoCores) = true ∧
    getF (okFields (CustomConverter.create_mcpat_xml [] cfgTwoCores))
      (NodeId.core 1, "total_instructions") = none ∧
    getF (okFields (CustomConverter.create_mcpat_xml [] cfgTwoCores))
      (NodeId.core 1, "total_cycles") = none := by
  exact ⟨by decide, by decide, by decide, by decide⟩

/-- Witness for C3 (amended): with one configured core and
`total_cycles = 5` the core-0 cycle count reads `"5"`, the L1D geometry
string is written from the index-0 config entry, and no `core 1` field
exists. -/
theorem c3_per_core_witness :
    getF (okFields (CustomConverter.create_mcpat_xml statsTC5 cfgOneCore))
      (NodeId.core 0, "total_cycles") = some "5" ∧
    getF (okFields (CustomConverter.create_mcpat_xml statsTC5 cfgOneCore))
      (NodeId.dcache 0, "dcache_config") = some "32768,64,8,1,10,10,64,1" ∧
    getF (okFields (CustomConverter.create_mcpat_xml statsTC5 cfgOneCore))
      (NodeId.core 1, "busy_cycles") = none := by
  have h : CustomConverter.create_mcpat_xml statsTC5 cfgOneCore =
      Except.ok (okFields (CustomConverter.create_mcpat_xml statsTC5 cfgOneCore),
        okWarns (CustomConverter.create_mcpat_xml statsTC5 cfgOneCore)) := by rfl
  have happ := c3_per_core_population_amended statsTC5 [("board", Json.obj
    [("cache_line_size", Json.num 64),
     ("processor", Json.obj [("cores", Json.arr [Json.obj []])]),
     ("cache_hierarchy", Json.obj
       [("l1icaches", Json.arr [Json.obj
          [("size", Json.num 16384), ("assoc", Json.num 4)]]),
        ("l1dcaches", Json.arr [Json.obj
          [("size", Json.num 32768), ("assoc", Json.num 8)]])])])] _ _ h
  have hcond := happ.2 (by decide)
  refine ⟨?_, ?_, ?_⟩
  · exact hcond.2.2.2.2.2.2.1.trans (by decide)
  · have hgl : CustomConverter.geomLookup (Json.obj [("board", Json.obj
        [("cache_line_size", Json.num 64),
         ("processor", Json.obj [("cores", Json.arr [Json.obj []])]),
         ("cache_hierarchy", Json.obj
           [("l1icaches", Json.arr [Json.obj
              [("size", Json.num 16384), ("assoc", Json.num 4)]]),
            ("l1dcaches", Json.arr [Json.obj
              [("size", Json.num 32768), ("assoc", Json.num 8)]])])])])
        "l1dcaches" 0 = Except.ok (some ("32768", Json.num 8)) := by rfl
    exact (hcond.2.2.2.2.2.2.2 ("32768", Json.num 8) hgl).trans (by decide)
  · exact happ.1 1 (by omega) "busy_cycles"
